import Mathlib

/-!
# SolarPos: a solar position calculator with a one-entry cache

A shallow embedding of `SolarPos.h` / `SolarPos.cpp`.

* The object is the record `SolarPos`; every member function is a function
  taking the object and returning the object after the call (together with
  the returned value for the functions that return one).
* the definitions named after the variables of the source embed `float`
  arithmetic as exact arithmetic on real numbers: `sin`, `cos`, `tan`, `asin`
  and `floor` are the real functions, nothing is rounded.  A value that the C
  library cannot produce as a number (`acos` outside `[-1, 1]`, a quotient by
  zero, a conversion to `uint32_t` whose truncated value is not representable)
  is `none`; everything computed from it is `none` as well.
* the definitions whose name starts with `float` embed lines of `calcSolar` in
  the arithmetic of the source, binary32 for `float` and binary64 for `double`,
  on rational numbers.  They show where rounding makes the source differ from
  the exact values: the floored modulo of line 110 and the three instants of
  lines 97 to 103.  The azimuth of lines 123 to 132 differs when it is computed
  from the zenith angle rounded to binary32, which `azimuthAcos` and `SAA` take
  as an argument.
* `uint32_t` values are natural numbers; `int` and `long` are integers.
* the local variables of `calcSolar` are definitions of the same name, each
  taking the values it is computed from; `recompute` puts them together in the
  order of the source.
* the constructor does not initialise the cache fields: `new` takes the prior
  contents of the storage of the object as an argument.
-/

/-- The object `SolarPos` (SolarPos.h, private fields). -/
structure SolarPos where
  /-- Time zone Offset, zones west of GMT are negative -/
  _tzOffset : ℤ
  /-- Latitude of site, values north of equator are positive -/
  _lat : ℝ
  /-- Longitude of site, values west of GMT are negative -/
  _lon : ℝ
  /-- Solar Noon time (unix Time) -/
  _SolarNoonTime : Option ℕ
  /-- Sunrise time (unix Time) -/
  _SunriseTime : Option ℕ
  /-- Sunset time (unix Time) -/
  _SunsetTime : Option ℕ
  /-- Sunlight Duration (minutes) -/
  _SunDuration : Option ℝ
  /-- Solar Elevation, Corrected (degrees) -/
  _SEC_Corr : Option ℝ
  /-- Solar Azimuth Angle (degrees) -/
  _SAA : Option ℝ
  /-- The instant of the last computation -/
  _lastTime : ℕ

namespace SolarPos

/-! ## Constants and library functions -/

/-- Constant `julianUnixEpoch` (SolarPos.h): julian days to start of unix epoch. -/
noncomputable def julianUnixEpoch : ℝ := 2440587.5

/-- Modelled from the spec: the macro `DEG_TO_RAD` of `Arduino.h`, which is not
part of the repository ("all angular trigonometric inputs must be converted
degrees to radians consistently"): the exact factor pi/180. -/
noncomputable def DEG_TO_RAD : ℝ := Real.pi / 180

/-- Modelled from the spec: the macro `RAD_TO_DEG` of `Arduino.h`, which is not
part of the repository: the exact factor 180/pi. -/
noncomputable def RAD_TO_DEG : ℝ := 180 / Real.pi

/-- Modelled from the spec: `DateTime(t).second()` of `DS3231M.h`, which is not
part of the repository: the seconds of the civil time that `t` represents in
UTC. -/
def second (t : ℕ) : ℕ := t % 60

/-- Modelled from the spec: `DateTime(t).minute()` of `DS3231M.h`, which is not
part of the repository: the minutes of the civil time that `t` represents in
UTC. -/
def minute (t : ℕ) : ℕ := t / 60 % 60

/-- Modelled from the spec: `DateTime(t).hour()` of `DS3231M.h`, which is not
part of the repository: the hours of the civil time that `t` represents in
UTC. -/
def hour (t : ℕ) : ℕ := t / 3600 % 24

/-- The C function `acos`: a number on `[-1, 1]`, no number elsewhere. -/
noncomputable def acos (x : ℝ) : Option ℝ :=
  if -1 ≤ x ∧ x ≤ 1 then some (Real.arccos x) else none

/-- The quotient of two floats: no number when the divisor is zero. -/
noncomputable def fdiv (a b : ℝ) : Option ℝ :=
  if b = 0 then none else some (a / b)

/-- The conversion of a float to `uint32_t`: truncation, defined when the
truncated value is representable. -/
noncomputable def toUInt32 (x : ℝ) : Option ℕ :=
  if -1 < x ∧ x < 2 ^ 32 then some ⌊x⌋₊ else none

/-- The floored modulo `x - m * floor (x / m)` that `calcSolar` writes out three
times, in exact arithmetic, where it lies in `[0, m)`.  In the arithmetic of the
source it can be `m` itself, for a small negative `x` (`floatTST`). -/
noncomputable def floorMod (x m : ℝ) : ℝ := x - m * (⌊x / m⌋ : ℝ)

/-! ## The local variables of `calcSolar` -/

/-- Local variable `timeFracDay`: the time past midnight, as a fractional day. -/
noncomputable def timeFracDay (t : ℕ) : ℝ :=
  ((((second t : ℝ) / 60.0) + (minute t : ℝ)) / 60.0 + (hour t : ℝ)) / 24.0

/-- Local variable `unixDays`: whole days since the start of the Unix epoch. -/
def unixDays (t : ℕ) : ℤ := ((t / 86400 : ℕ) : ℤ)

/-- Local variable `offsetDay`. -/
noncomputable def offsetDay (tzOffset : ℤ) : ℝ := (tzOffset : ℝ) / 24.0

/-- Local variable `JDN`: Julian Day Number, adjusted to GMT. -/
noncomputable def JDN (tzOffset : ℤ) (t : ℕ) : ℝ :=
  julianUnixEpoch + (unixDays t : ℝ) + timeFracDay t - offsetDay tzOffset

/-- Local variable `JCN`: Julian Century Number. -/
noncomputable def JCN (tzOffset : ℤ) (t : ℕ) : ℝ :=
  (JDN tzOffset t - 2451545) / 36525.0

/-- Local variable `GMLS`: Geometric Mean Longitude of Sun (degrees), after the floored
modulo. -/
noncomputable def GMLS (jcn : ℝ) : ℝ :=
  floorMod (280.46646 + jcn * (36000.76983 + jcn * 0.0003032)) 360

/-- Local variable `GMAS`: Geometric Mean Anomaly of Sun (degrees). -/
noncomputable def GMAS (jcn : ℝ) : ℝ :=
  357.52911 + (jcn * (35999.05029 - 0.0001537 * jcn))

/-- Local variable `EEO`: Eccentricity of Earth Orbit. -/
noncomputable def EEO (jcn : ℝ) : ℝ :=
  0.016708634 - (jcn * (0.000042037 + 0.0000001267 * jcn))

/-- Local variable `SEC`: Sun Equation of Center. -/
noncomputable def SEC (jcn : ℝ) : ℝ :=
  Real.sin (GMAS jcn * DEG_TO_RAD) * (1.914602 - (jcn * (0.004817 + 0.000014 * jcn))) +
    Real.sin ((2 * GMAS jcn) * DEG_TO_RAD) * (0.019993 - 0.000101 * jcn) +
    Real.sin ((3 * GMAS jcn) * DEG_TO_RAD) * 0.000289

/-- Local variable `STL`: Sun True Longitude (degrees). -/
noncomputable def STL (jcn : ℝ) : ℝ := GMLS jcn + SEC jcn

/-- Local variable `SAL`: Sun Apparent Longitude (degrees). -/
noncomputable def SAL (jcn : ℝ) : ℝ :=
  STL jcn - 0.00569 - (0.00478 * Real.sin ((125.04 - 1934.136 * jcn) * DEG_TO_RAD))

/-- Local variable `MOE`: Mean Oblique Ecliptic (degrees). -/
noncomputable def MOE (jcn : ℝ) : ℝ :=
  23 + (26 + (21.448 - jcn * (46.815 + jcn * (0.00059 - jcn * 0.001813))) / 60) / 60

/-- Local variable `OC`: Oblique correction (degrees). -/
noncomputable def OC (jcn : ℝ) : ℝ :=
  MOE jcn + 0.00256 * Real.cos ((125.04 - 1934.136 * jcn) * DEG_TO_RAD)

/-- The argument that `calcSolar` passes to `asin` for `SDec`. -/
noncomputable def SDecArg (jcn : ℝ) : ℝ :=
  Real.sin (OC jcn * DEG_TO_RAD) * Real.sin (SAL jcn * DEG_TO_RAD)

/-- Local variable `SDec`: Sun Declination (degrees).  The argument of `asin` is a product of
two sines, inside `[-1, 1]`, where `asin` is `Real.arcsin`. -/
noncomputable def SDec (jcn : ℝ) : ℝ :=
  (Real.arcsin (SDecArg jcn)) * RAD_TO_DEG

/-- Local variable `vy`: var y. -/
noncomputable def vy (jcn : ℝ) : ℝ :=
  Real.tan ((OC jcn / 2) * DEG_TO_RAD) * Real.tan ((OC jcn / 2) * DEG_TO_RAD)

/-- Local variable `EOT`: Equation of Time (minutes). -/
noncomputable def EOT (jcn : ℝ) : ℝ :=
  4 * ((vy jcn * Real.sin (2 * (GMLS jcn * DEG_TO_RAD)) -
        2 * EEO jcn * Real.sin (GMAS jcn * DEG_TO_RAD) +
        4 * EEO jcn * vy jcn * Real.sin (GMAS jcn * DEG_TO_RAD) *
          Real.cos (2 * (GMLS jcn * DEG_TO_RAD)) -
        0.5 * vy jcn * vy jcn * Real.sin (4 * (GMLS jcn * DEG_TO_RAD)) -
        1.25 * EEO jcn * EEO jcn * Real.sin (2 * (GMAS jcn * DEG_TO_RAD))) * RAD_TO_DEG)

/-- The argument that `calcSolar` passes to `acos` for `HAS`. -/
noncomputable def HASarg (lat sdec : ℝ) : Option ℝ :=
  (fdiv (Real.cos (90.833 * DEG_TO_RAD))
      (Real.cos (lat * DEG_TO_RAD) * Real.cos (sdec * DEG_TO_RAD))).map
    fun q => q - Real.tan (lat * DEG_TO_RAD) * Real.tan (sdec * DEG_TO_RAD)

/-- Local variable `HAS`: Hour Angle Sunrise (degrees). -/
noncomputable def HAS (lat sdec : ℝ) : Option ℝ :=
  ((HASarg lat sdec).bind acos).map fun a => a * RAD_TO_DEG

/-- Local variable `SolarNoonfrac`: Solar Noon as a fraction of a day, GMT. -/
noncomputable def SolarNoonfrac (lon eot : ℝ) : ℝ := (720 - 4 * lon - eot) / 1440

/-- The float that is converted to `_SolarNoonTime`, in exact arithmetic.  The
source computes it in binary32 (`floatSolarNoonTime`), where it is a multiple of
128 s for the instants from `2 ^ 30` to `2 ^ 31` (2004 to 2038) and of 256 s above,
and can be several minutes away from this value. -/
noncomputable def solarNoonSeconds (tzOffset : ℤ) (lon : ℝ) (t : ℕ) : ℝ :=
  ((unixDays t : ℝ) + SolarNoonfrac lon (EOT (JCN tzOffset t)) + offsetDay tzOffset) * 86400

/-- The float that is converted to `_SunriseTime`, for the value `has` of
`HAS`, in exact arithmetic.  The source rounds the sum of days to binary32 on its
own (`floatSunriseTime`), apart from the rounding of solar noon. -/
noncomputable def sunriseSeconds (tzOffset : ℤ) (lon : ℝ) (t : ℕ) (has : ℝ) : ℝ :=
  (SolarNoonfrac lon (EOT (JCN tzOffset t)) - has * 4 / 1440 + (unixDays t : ℝ) +
    offsetDay tzOffset) * 86400.0

/-- The float that is converted to `_SunsetTime`, for the value `has` of
`HAS`, in exact arithmetic.  The source rounds the sum of days to binary32 on its
own (`floatSunsetTime`), apart from the rounding of solar noon. -/
noncomputable def sunsetSeconds (tzOffset : ℤ) (lon : ℝ) (t : ℕ) (has : ℝ) : ℝ :=
  (SolarNoonfrac lon (EOT (JCN tzOffset t)) + has * 4 / 1440 + (unixDays t : ℝ) +
    offsetDay tzOffset) * 86400.0

/-- Local variable `TST`: True Solar Time (minutes), after the floored modulo, in
exact arithmetic.  The binary32 value of the source is `floatTST`, which can be
exactly 1440. -/
noncomputable def TST (tzOffset : ℤ) (lon : ℝ) (t : ℕ) : ℝ :=
  floorMod (timeFracDay t * 1440 + EOT (JCN tzOffset t) + 4 * lon - 60 * (tzOffset : ℝ)) 1440

/-- Local variable `HA`: Hour Angle (degrees).  The source assigns it in an `if` / `else if`
without a final `else`. -/
noncomputable def HA (tst : ℝ) : Option ℝ :=
  if tst / 4 < 0 then some (tst / 4 + 180)
  else if tst / 4 ≥ 0 then some (tst / 4 - 180)
  else none

/-- The argument that `calcSolar` passes to `acos` for `SZA`. -/
noncomputable def SZAarg (lat sdec ha : ℝ) : ℝ :=
  Real.sin (lat * DEG_TO_RAD) * Real.sin (sdec * DEG_TO_RAD) +
    Real.cos (lat * DEG_TO_RAD) * Real.cos (sdec * DEG_TO_RAD) * Real.cos (ha * DEG_TO_RAD)

/-- Local variable `SZA`: Solar Zenith Angle (degrees), in exact arithmetic, where
the argument of `acos` is in `[-1, 1]`.  The source rounds the argument to binary64
and the angle to binary32. -/
noncomputable def SZA (lat sdec ha : ℝ) : Option ℝ :=
  (acos (SZAarg lat sdec ha)).map fun a => a * RAD_TO_DEG

/-- The value `acos (...) * RAD_TO_DEG` that both branches of the azimuth
computation share, for the zenith angle `sza` that it is given.  For the exact
zenith angle the quotient is in `[-1, 1]`; for the zenith angle rounded to binary32,
which is what the source holds, it can be above 1. -/
noncomputable def azimuthAcos (lat sdec sza : ℝ) : Option ℝ :=
  ((fdiv (Real.sin (lat * DEG_TO_RAD) * Real.cos (sza * DEG_TO_RAD) -
        Real.sin (sdec * DEG_TO_RAD))
      (Real.cos (lat * DEG_TO_RAD) * Real.sin (sza * DEG_TO_RAD))).bind acos).map
    fun a => a * RAD_TO_DEG

/-- Field `_SAA` before the final floored modulo. -/
noncomputable def rawSAA (lat sdec sza ha : ℝ) : Option ℝ :=
  if ha > 0 then (azimuthAcos lat sdec sza).map fun a => a + 180
  else (azimuthAcos lat sdec sza).map fun a => 540 - a

/-- Field `_SAA`: Solar Azimuth Angle (degrees clockwise from North). -/
noncomputable def SAA (lat sdec sza ha : ℝ) : Option ℝ :=
  (rawSAA lat sdec sza ha).map fun a => floorMod a 360

/-- The hour angle `HA` of a configuration at the instant `t`. -/
noncomputable def hourAngle (tzOffset : ℤ) (lon : ℝ) (t : ℕ) : Option ℝ :=
  HA (TST tzOffset lon t)

/-- The zenith angle `SZA` of a configuration at the instant `t`. -/
noncomputable def zenith (tzOffset : ℤ) (lat lon : ℝ) (t : ℕ) : Option ℝ :=
  (hourAngle tzOffset lon t).bind fun h => SZA lat (SDec (JCN tzOffset t)) h

/-- The six values that one run of the body of `calcSolar` stores. -/
structure Results where
  /-- the value stored in `_SolarNoonTime` -/
  solarNoonTime : Option ℕ
  /-- the value stored in `_SunriseTime` -/
  sunriseTime : Option ℕ
  /-- the value stored in `_SunsetTime` -/
  sunsetTime : Option ℕ
  /-- the value stored in `_SunDuration` -/
  sunDuration : Option ℝ
  /-- the value stored in `_SEC_Corr` -/
  secCorr : Option ℝ
  /-- the value stored in `_SAA` -/
  saa : Option ℝ

/-- The body of `calcSolar` below its first two lines: the six values computed
from the configuration and the instant. -/
noncomputable def recompute (tzOffset : ℤ) (lat lon : ℝ) (t : ℕ) : Results :=
  let jcn := JCN tzOffset t
  let sdec := SDec jcn
  let has := HAS lat sdec
  let ha := hourAngle tzOffset lon t
  let sza := zenith tzOffset lat lon t
  { solarNoonTime := toUInt32 (solarNoonSeconds tzOffset lon t)
    sunriseTime := has.bind fun h => toUInt32 (sunriseSeconds tzOffset lon t h)
    sunsetTime := has.bind fun h => toUInt32 (sunsetSeconds tzOffset lon t h)
    sunDuration := has.map fun h => 8 * h
    secCorr := sza.map fun z => 90 - z + 0.1
    saa := ha.bind fun h => sza.bind fun z => SAA lat sdec z h }

/-! ## The member functions -/

/-- Member function `initSolarCalc`: stores the three site parameters. -/
def initSolarCalc (s : SolarPos) (tzOffset : ℤ) (lat lon : ℝ) : SolarPos :=
  { s with _tzOffset := tzOffset, _lat := lat, _lon := lon }

/-- The constructor `SolarPos(tzOffset, lat, lon)`: it calls `initSolarCalc` and
initialises no other field, so the other fields keep what the storage of the
object held before, `mem`. -/
def new (mem : SolarPos) (tzOffset : ℤ) (lat lon : ℝ) : SolarPos :=
  initSolarCalc mem tzOffset lat lon

/-- Member function `gettzOffset`. -/
def gettzOffset (s : SolarPos) : ℤ × SolarPos := (s._tzOffset, s)

/-- Member function `getlat`. -/
def getlat (s : SolarPos) : ℝ × SolarPos := (s._lat, s)

/-- Member function `getlon`. -/
def getlon (s : SolarPos) : ℝ × SolarPos := (s._lon, s)

/-- Member function `calcSolar`: returns at once when `t` is the instant of the last
computation, and otherwise stores `t` and the six recomputed values. -/
noncomputable def calcSolar (s : SolarPos) (t : ℕ) : SolarPos :=
  if s._lastTime = t then s
  else
    let r := recompute s._tzOffset s._lat s._lon t
    { s with
      _lastTime := t
      _SolarNoonTime := r.solarNoonTime
      _SunriseTime := r.sunriseTime
      _SunsetTime := r.sunsetTime
      _SunDuration := r.sunDuration
      _SEC_Corr := r.secCorr
      _SAA := r.saa }

/-- Member function `getSolarNoonTime`. -/
noncomputable def getSolarNoonTime (s : SolarPos) (t : ℕ) : Option ℕ × SolarPos :=
  ((calcSolar s t)._SolarNoonTime, calcSolar s t)

/-- Member function `getSunriseTime`. -/
noncomputable def getSunriseTime (s : SolarPos) (t : ℕ) : Option ℕ × SolarPos :=
  ((calcSolar s t)._SunriseTime, calcSolar s t)

/-- Member function `getSunsetTime`. -/
noncomputable def getSunsetTime (s : SolarPos) (t : ℕ) : Option ℕ × SolarPos :=
  ((calcSolar s t)._SunsetTime, calcSolar s t)

/-- Member function `getSunDuration`. -/
noncomputable def getSunDuration (s : SolarPos) (t : ℕ) : Option ℝ × SolarPos :=
  ((calcSolar s t)._SunDuration, calcSolar s t)

/-- Member function `getSEC_Corr`. -/
noncomputable def getSEC_Corr (s : SolarPos) (t : ℕ) : Option ℝ × SolarPos :=
  ((calcSolar s t)._SEC_Corr, calcSolar s t)

/-- Member function `getSAA`. -/
noncomputable def getSAA (s : SolarPos) (t : ℕ) : Option ℝ × SolarPos :=
  ((calcSolar s t)._SAA, calcSolar s t)

/-- The six query operations. -/
inductive Query where
  | solarNoonTime | sunriseTime | sunsetTime | sunDuration | secCorr | saa

/-- The object after one query operation at the instant `t`. -/
noncomputable def Query.run (q : Query) (s : SolarPos) (t : ℕ) : SolarPos :=
  match q with
  | .solarNoonTime => (getSolarNoonTime s t).2
  | .sunriseTime => (getSunriseTime s t).2
  | .sunsetTime => (getSunsetTime s t).2
  | .sunDuration => (getSunDuration s t).2
  | .secCorr => (getSEC_Corr s t).2
  | .saa => (getSAA s t).2

/-- A call of a public member function other than `initSolarCalc`: one of the
six queries with its instant, or one of the three accessors. -/
inductive Call where
  | query (q : Query) (t : ℕ)
  | gettzOffset
  | getlat
  | getlon

/-- The object after one call. -/
noncomputable def Call.run (c : Call) (s : SolarPos) : SolarPos :=
  match c with
  | .query q t => q.run s t
  | .gettzOffset => (SolarPos.gettzOffset s).2
  | .getlat => (SolarPos.getlat s).2
  | .getlon => (SolarPos.getlon s).2

/-- The object after a sequence of calls. -/
noncomputable def runCalls (s : SolarPos) : List Call → SolarPos
  | [] => s
  | c :: rest => runCalls (c.run s) rest

/-- The six cached fields hold what `calcSolar` computes from the current
configuration for the instant `_lastTime`. -/
def CacheValid (s : SolarPos) : Prop :=
  s._SolarNoonTime = (recompute s._tzOffset s._lat s._lon s._lastTime).solarNoonTime ∧
  s._SunriseTime = (recompute s._tzOffset s._lat s._lon s._lastTime).sunriseTime ∧
  s._SunsetTime = (recompute s._tzOffset s._lat s._lon s._lastTime).sunsetTime ∧
  s._SunDuration = (recompute s._tzOffset s._lat s._lon s._lastTime).sunDuration ∧
  s._SEC_Corr = (recompute s._tzOffset s._lat s._lon s._lastTime).secCorr ∧
  s._SAA = (recompute s._tzOffset s._lat s._lon s._lastTime).saa

/-- The storage of an object of static storage duration before its
constructor runs: every field zero. -/
def zeroMem : SolarPos :=
  { _tzOffset := 0, _lat := 0, _lon := 0, _SolarNoonTime := some 0, _SunriseTime := some 0,
    _SunsetTime := some 0, _SunDuration := some 0, _SEC_Corr := some 0, _SAA := some 0,
    _lastTime := 0 }

/-! ## Dates -/

/-- Modelled from the spec: the instant `t`, read as a local clock, falls on a date of
June, July or August.  For the years 1970 to 2099 every fourth year from 1972 is a
leap year, so the calendar repeats every 1461 days from 1970-01-01.  The four years
of a cycle start at its days 0, 365, 730 and 1096; June 1 to August 31 are the days
151 to 242 of a common year and the days 152 to 243 of the leap year, the third of
the cycle. -/
def summerDate (t : ℕ) : Prop :=
  (151 ≤ t / 86400 % 1461 ∧ t / 86400 % 1461 < 243) ∨
  (516 ≤ t / 86400 % 1461 ∧ t / 86400 % 1461 < 608) ∨
  (882 ≤ t / 86400 % 1461 ∧ t / 86400 % 1461 < 974) ∨
  (1247 ≤ t / 86400 % 1461 ∧ t / 86400 % 1461 < 1339)

instance (t : ℕ) : Decidable (summerDate t) := by
  unfold summerDate
  infer_instance

/-! ## The binary floating-point arithmetic of `calcSolar`

The lines of `calcSolar` that only add, subtract, multiply, divide, take `floor` and
convert, in the arithmetic of the source: `float` is IEEE 754 binary32, the `double`
that a literal such as `86400.0` or `60.0` and the function `floor` of `math.h` bring
in is binary64, every operation rounds to nearest, ties to even.  A floating-point
number is the rational number it stands for.  The results of `sin`, `cos`, `tan`,
`asin` and `acos` depend on the C library; a line that needs them takes the
variable computed from them (`EOT`, `HAS`) as an argument.  No value here is near
the overflow threshold, so rounding never yields an infinity. -/

/-- Round to the nearest integer, ties to the even one. -/
def roundHalfEven (r : ℚ) : ℤ :=
  if r - ⌊r⌋ < 1 / 2 then ⌊r⌋
  else if 1 / 2 < r - ⌊r⌋ then ⌊r⌋ + 1
  else if ⌊r⌋ % 2 = 0 then ⌊r⌋ else ⌊r⌋ + 1

/-- Round to nearest, ties to even, in the binary format with `p` significand bits and
least normal exponent `emin`: the quantum is `2 ^ (e - (p - 1))` for the exponent `e` of
the binade of `x`, and that of `emin` below the normal range. -/
def roundBinary (p : ℕ) (emin : ℤ) (x : ℚ) : ℚ :=
  if x = 0 then 0
  else
    (roundHalfEven (x / (2 : ℚ) ^ (max (Int.log 2 |x|) emin - ((p : ℤ) - 1))) : ℚ) *
      (2 : ℚ) ^ (max (Int.log 2 |x|) emin - ((p : ℤ) - 1))

/-- Rounding to `float` (binary32). -/
def round32 (x : ℚ) : ℚ := roundBinary 24 (-126) x

/-- Rounding to `double` (binary64). -/
def round64 (x : ℚ) : ℚ := roundBinary 53 (-1022) x

/-- The conversion of a floating-point number to `uint32_t`: truncation, defined when
the truncated value is representable. -/
def floatToUInt32 (x : ℚ) : Option ℕ :=
  if -1 < x ∧ x < 2 ^ 32 then some ⌊x⌋₊ else none

/-- Local variable `timeFracDay` (line 58): the quotients by `60.0` and `24.0` and the
sums are binary64, the result is stored in a `float`. -/
def floatTimeFracDay (t : ℕ) : ℚ :=
  round32 (round64 (round64 (round64 (round64 (round64 ((second t : ℚ) / 60) +
    (minute t : ℚ)) / 60) + (hour t : ℚ)) / 24))

/-- Local variable `offsetDay` (line 64): a binary64 quotient stored in a `float`. -/
def floatOffsetDay (tzOffset : ℤ) : ℚ := round32 (round64 ((tzOffset : ℚ) / 24))

/-- Local variable `SolarNoonfrac` (line 94), binary32, for the `float` values `lon` of
`_lon` and `eot` of `EOT`. -/
def floatSolarNoonfrac (lon eot : ℚ) : ℚ :=
  round32 (round32 (round32 (720 - round32 (4 * lon)) - eot) / 1440)

/-- The `float` that line 97 converts to `_SolarNoonTime`: two binary32 sums and the
binary32 product by the integer `86400`. -/
def floatSolarNoonTime (unixDays : ℤ) (snf off : ℚ) : ℚ :=
  round32 (round32 (round32 (round32 (unixDays : ℚ) + snf) + off) * 86400)

/-- The `double` that line 100 converts to `_SunriseTime`: binary32 sums and the
binary64 product by `86400.0`, for the `float` value `has` of `HAS`. -/
def floatSunriseTime (unixDays : ℤ) (snf has off : ℚ) : ℚ :=
  round64 (round32 (round32 (round32 (snf - round32 (round32 (has * 4) / 1440)) +
    round32 (unixDays : ℚ)) + off) * 86400)

/-- The `double` that line 103 converts to `_SunsetTime`. -/
def floatSunsetTime (unixDays : ℤ) (snf has off : ℚ) : ℚ :=
  round64 (round32 (round32 (round32 (snf + round32 (round32 (has * 4) / 1440)) +
    round32 (unixDays : ℚ)) + off) * 86400)

/-- Field `_SunDuration` (line 106), binary32. -/
def floatSunDuration (has : ℚ) : ℚ := round32 (8 * has)

/-- Local variable `TST` as line 107 initialises it, binary32, for the `float` values
`tfd` of `timeFracDay`, `eot` of `EOT` and `lon` of `_lon`. -/
def floatRawTST (tfd eot lon : ℚ) (tzOffset : ℤ) : ℚ :=
  round32 (round32 (round32 (round32 (tfd * 1440) + eot) + round32 (4 * lon)) -
    round32 ((60 * tzOffset : ℤ) : ℚ))

/-- Local variable `TST` after line 110, `TST -= (1440 * (floor(TST/1440)))`: the
quotient is binary32, `floor` of `math.h` takes and returns a `double`, the product
and the difference are binary64, the result is stored in the `float`. -/
def floatTST (tst : ℚ) : ℚ :=
  round32 (round64 (tst - round64 (1440 * ((⌊round32 (tst / 1440)⌋ : ℤ) : ℚ))))

/-- Local variable `HA` (lines 111 to 116), binary32. -/
def floatHA (tst : ℚ) : Option ℚ :=
  if round32 (tst / 4) < 0 then some (round32 (round32 (tst / 4) + 180))
  else if round32 (tst / 4) ≥ 0 then some (round32 (round32 (tst / 4) - 180))
  else none

/-! ## Lemmas on the definitions -/

theorem RAD_TO_DEG_mul_DEG_TO_RAD : RAD_TO_DEG * DEG_TO_RAD = 1 := by
  unfold RAD_TO_DEG DEG_TO_RAD
  field_simp

theorem DEG_TO_RAD_pos : 0 < DEG_TO_RAD := by
  unfold DEG_TO_RAD
  positivity

theorem RAD_TO_DEG_pos : 0 < RAD_TO_DEG := by
  unfold RAD_TO_DEG
  positivity

theorem timeFracDay_nonneg (t : ℕ) : 0 ≤ timeFracDay t := by
  unfold timeFracDay
  positivity

theorem timeFracDay_lt_one (t : ℕ) : timeFracDay t < 1 := by
  unfold timeFracDay
  have hs : (second t : ℝ) ≤ 59 := by
    have : second t ≤ 59 := by unfold second; omega
    exact_mod_cast this
  have hm : (minute t : ℝ) ≤ 59 := by
    have : minute t ≤ 59 := by unfold minute; omega
    exact_mod_cast this
  have hh : (hour t : ℝ) ≤ 23 := by
    have : hour t ≤ 23 := by unfold hour; omega
    exact_mod_cast this
  norm_num
  linarith

theorem unixDays_nonneg (t : ℕ) : (0 : ℝ) ≤ (unixDays t : ℝ) := by
  unfold unixDays
  positivity

theorem unixDays_le (t : ℕ) (ht : t < 2 ^ 32) : ((unixDays t : ℤ) : ℝ) ≤ 49710 := by
  unfold unixDays
  have : t / 86400 ≤ 49710 := by omega
  exact_mod_cast this

/-- the Julian century number over the whole range of `uint32_t` instants and
16-bit time zone offsets -/
theorem JCN_bounds (tz : ℤ) (t : ℕ) (ht : t < 2 ^ 32) (h1 : -32768 ≤ tz) (h2 : tz ≤ 32767) :
    -(1 / 2) ≤ JCN tz t ∧ JCN tz t ≤ 6 / 5 := by
  have a := timeFracDay_nonneg t
  have b := timeFracDay_lt_one t
  have c := unixDays_nonneg t
  have d := unixDays_le t ht
  have e1 : (-32768 : ℝ) ≤ (tz : ℝ) := by exact_mod_cast h1
  have e2 : (tz : ℝ) ≤ 32767 := by exact_mod_cast h2
  unfold JCN JDN julianUnixEpoch offsetDay
  constructor
  · rw [le_div_iff₀ (by norm_num)]
    norm_num
    linarith
  · rw [div_le_iff₀ (by norm_num)]
    norm_num
    linarith

theorem MOE_bounds (j : ℝ) (h1 : -(1 / 2) ≤ j) (h2 : j ≤ 6 / 5) :
    23.42 ≤ MOE j ∧ MOE j ≤ 23.446 := by
  unfold MOE
  have a : -0.002 ≤ j * (0.00059 - j * 0.001813) ∧ j * (0.00059 - j * 0.001813) ≤ 0.002 := by
    constructor <;> nlinarith
  have b : -23.5 ≤ j * (46.815 + j * (0.00059 - j * 0.001813)) ∧
      j * (46.815 + j * (0.00059 - j * 0.001813)) ≤ 56.2 := by
    obtain ⟨a1, a2⟩ := a
    constructor <;> nlinarith
  obtain ⟨b1, b2⟩ := b
  constructor <;> linarith

theorem OC_bounds (j : ℝ) (h1 : -(1 / 2) ≤ j) (h2 : j ≤ 6 / 5) :
    23.41 ≤ OC j ∧ OC j ≤ 23.45 := by
  obtain ⟨m1, m2⟩ := MOE_bounds j h1 h2
  unfold OC
  have c1 := Real.neg_one_le_cos ((125.04 - 1934.136 * j) * DEG_TO_RAD)
  have c2 := Real.cos_le_one ((125.04 - 1934.136 * j) * DEG_TO_RAD)
  constructor <;> linarith

theorem EEO_bounds (j : ℝ) (h1 : -(1 / 2) ≤ j) (h2 : j ≤ 6 / 5) :
    0.0166 ≤ EEO j ∧ EEO j ≤ 0.01674 := by
  unfold EEO
  constructor <;> nlinarith

/-- the half obliquity in radians -/
theorem halfOC_bounds (j : ℝ) (h1 : -(1 / 2) ≤ j) (h2 : j ≤ 6 / 5) :
    0.2 ≤ (OC j / 2) * DEG_TO_RAD ∧ (OC j / 2) * DEG_TO_RAD ≤ 0.205 := by
  obtain ⟨o1, o2⟩ := OC_bounds j h1 h2
  have p1 := Real.pi_gt_d6
  have p2 := Real.pi_lt_d6
  unfold DEG_TO_RAD
  constructor <;> nlinarith

theorem tan_bounds_small (x : ℝ) (h1 : 0 ≤ x) (h2 : x ≤ 0.205) :
    0 ≤ Real.tan x ∧ Real.tan x ≤ 0.21 := by
  have hc : 0.978 ≤ Real.cos x := by
    have := Real.one_sub_sq_div_two_le_cos (x := x)
    nlinarith
  have hs : Real.sin x ≤ x := Real.sin_le h1
  have hs0 : 0 ≤ Real.sin x := Real.sin_nonneg_of_nonneg_of_le_pi h1 (by linarith [Real.pi_gt_three])
  rw [Real.tan_eq_sin_div_cos]
  constructor
  · apply div_nonneg hs0; linarith
  · rw [div_le_iff₀ (by linarith)]
    nlinarith

theorem vy_bounds (j : ℝ) (h1 : -(1 / 2) ≤ j) (h2 : j ≤ 6 / 5) :
    0 ≤ vy j ∧ vy j ≤ 0.0441 := by
  obtain ⟨a, b⟩ := halfOC_bounds j h1 h2
  obtain ⟨c, d⟩ := tan_bounds_small _ (by linarith) b
  unfold vy
  constructor
  · positivity
  · nlinarith

theorem RAD_TO_DEG_lt : RAD_TO_DEG < 57.3 := by
  unfold RAD_TO_DEG
  rw [div_lt_iff₀ Real.pi_pos]
  have := Real.pi_gt_d6
  nlinarith

theorem abs_mul_le_of_abs_le_one (a b A : ℝ) (ha : |a| ≤ A) (hb : |b| ≤ 1) : |a * b| ≤ A := by
  rw [abs_mul]
  calc |a| * |b| ≤ |a| * 1 := mul_le_mul_of_nonneg_left hb (abs_nonneg a)
    _ = |a| := mul_one _
    _ ≤ A := ha

theorem EOT_core (v e s1 s2 c3 s4 s5 r : ℝ) (v1 : 0 ≤ v) (v2 : v ≤ 0.0441)
    (e1 : 0.0166 ≤ e) (e2 : e ≤ 0.01674) (a1 : |s1| ≤ 1) (a2 : |s2| ≤ 1) (a3 : |c3| ≤ 1)
    (a4 : |s4| ≤ 1) (a5 : |s5| ≤ 1) (r0 : 0 < r) (r1 : r < 57.3) :
    |4 * ((v * s1 - 2 * e * s2 + 4 * e * v * s2 * c3 - 0.5 * v * v * s4 -
      1.25 * e * e * s5) * r)| ≤ 19 := by
  have t1 : |v * s1| ≤ 0.0441 :=
    abs_mul_le_of_abs_le_one _ _ _ (by rw [abs_of_nonneg v1]; exact v2) a1
  have t2 : |2 * e * s2| ≤ 0.03348 :=
    abs_mul_le_of_abs_le_one _ _ _ (by rw [abs_of_nonneg (by linarith)]; linarith) a2
  have t3 : |4 * e * v * s2 * c3| ≤ 0.003 := by
    apply abs_mul_le_of_abs_le_one _ _ _ _ a3
    apply abs_mul_le_of_abs_le_one _ _ _ _ a2
    rw [abs_of_nonneg (by nlinarith)]
    nlinarith
  have t4 : |0.5 * v * v * s4| ≤ 0.001 := by
    apply abs_mul_le_of_abs_le_one _ _ _ _ a4
    rw [abs_of_nonneg (by nlinarith)]
    nlinarith
  have t5 : |1.25 * e * e * s5| ≤ 0.0004 := by
    apply abs_mul_le_of_abs_le_one _ _ _ _ a5
    rw [abs_of_nonneg (by nlinarith)]
    nlinarith
  have tot : |v * s1 - 2 * e * s2 + 4 * e * v * s2 * c3 - 0.5 * v * v * s4 - 1.25 * e * e * s5|
      ≤ 0.08198 := by
    rw [abs_le] at t1 t2 t3 t4 t5 ⊢
    constructor <;> linarith [t1.1, t1.2, t2.1, t2.2, t3.1, t3.2, t4.1, t4.2, t5.1, t5.2]
  rw [abs_mul, abs_mul, abs_of_pos r0, abs_of_pos (by norm_num : (0:ℝ) < 4)]
  nlinarith [abs_nonneg (v * s1 - 2 * e * s2 + 4 * e * v * s2 * c3 - 0.5 * v * v * s4 - 1.25 * e * e * s5)]

theorem EOT_abs_le (j : ℝ) (h1 : -(1 / 2) ≤ j) (h2 : j ≤ 6 / 5) : |EOT j| ≤ 19 := by
  obtain ⟨v1, v2⟩ := vy_bounds j h1 h2
  obtain ⟨e1, e2⟩ := EEO_bounds j h1 h2
  unfold EOT
  exact EOT_core _ _ _ _ _ _ _ _ v1 v2 e1 e2 (Real.abs_sin_le_one _) (Real.abs_sin_le_one _)
    (Real.abs_cos_le_one _) (Real.abs_sin_le_one _) (Real.abs_sin_le_one _) RAD_TO_DEG_pos
    RAD_TO_DEG_lt

theorem abs_SDecArg_le_one (j : ℝ) : |SDecArg j| ≤ 1 := by
  unfold SDecArg
  exact abs_mul_le_of_abs_le_one _ _ _ (Real.abs_sin_le_one _) (Real.abs_sin_le_one _)

theorem SDec_rad (j : ℝ) : SDec j * DEG_TO_RAD = Real.arcsin (SDecArg j) := by
  unfold SDec
  rw [mul_assoc, RAD_TO_DEG_mul_DEG_TO_RAD, mul_one]

theorem sin_SDec (j : ℝ) : Real.sin (SDec j * DEG_TO_RAD) = SDecArg j := by
  rw [SDec_rad]
  have h := abs_le.mp (abs_SDecArg_le_one j)
  exact Real.sin_arcsin h.1 h.2

theorem cos_SDec (j : ℝ) : Real.cos (SDec j * DEG_TO_RAD) = √(1 - SDecArg j ^ 2) := by
  rw [SDec_rad, Real.cos_arcsin]

theorem OC_rad_bounds (j : ℝ) (h1 : -(1 / 2) ≤ j) (h2 : j ≤ 6 / 5) :
    0.4085 ≤ OC j * DEG_TO_RAD ∧ OC j * DEG_TO_RAD ≤ 0.4093 := by
  obtain ⟨o1, o2⟩ := OC_bounds j h1 h2
  have p1 := Real.pi_gt_d6
  have p2 := Real.pi_lt_d6
  unfold DEG_TO_RAD
  constructor <;> nlinarith

theorem sin_upper (x : ℝ) (h0 : 0 ≤ x) (h1 : x ≤ 1) :
    Real.sin x ≤ x - x ^ 3 / 6 + x ^ 4 * (5 / 96) := by
  have h := Real.sin_bound (x := x) (by rw [abs_of_nonneg h0]; exact h1)
  rw [abs_of_nonneg h0] at h
  have := (abs_le.mp h).2
  linarith

theorem sin_lower (x : ℝ) (h0 : 0 ≤ x) (h1 : x ≤ 1) :
    x - x ^ 3 / 6 - x ^ 4 * (5 / 96) ≤ Real.sin x := by
  have h := Real.sin_bound (x := x) (by rw [abs_of_nonneg h0]; exact h1)
  rw [abs_of_nonneg h0] at h
  have := (abs_le.mp h).1
  linarith

theorem cos_upper (x : ℝ) (h0 : 0 ≤ x) (h1 : x ≤ 1) :
    Real.cos x ≤ 1 - x ^ 2 / 2 + x ^ 4 * (5 / 96) := by
  have h := Real.cos_bound (x := x) (by rw [abs_of_nonneg h0]; exact h1)
  rw [abs_of_nonneg h0] at h
  have := (abs_le.mp h).2
  linarith

theorem sin_OC_bounds (j : ℝ) (h1 : -(1 / 2) ≤ j) (h2 : j ≤ 6 / 5) :
    0.39 ≤ Real.sin (OC j * DEG_TO_RAD) ∧ Real.sin (OC j * DEG_TO_RAD) ≤ 0.3994 := by
  obtain ⟨a, b⟩ := OC_rad_bounds j h1 h2
  set x := OC j * DEG_TO_RAD
  have hp := Real.pi_gt_three
  constructor
  · have hm : Real.sin 0.4085 ≤ Real.sin x :=
      Real.sin_le_sin_of_le_of_le_pi_div_two (by linarith) (by linarith) a
    have hl := sin_lower 0.4085 (by norm_num) (by norm_num)
    norm_num at hl
    linarith
  · have hm : Real.sin x ≤ Real.sin 0.4093 :=
      Real.sin_le_sin_of_le_of_le_pi_div_two (by linarith) (by linarith) b
    have hu := sin_upper 0.4093 (by norm_num) (by norm_num)
    norm_num at hu
    linarith

theorem abs_SDecArg_le (j : ℝ) (h1 : -(1 / 2) ≤ j) (h2 : j ≤ 6 / 5) : |SDecArg j| ≤ 0.3994 := by
  obtain ⟨a, b⟩ := sin_OC_bounds j h1 h2
  unfold SDecArg
  exact abs_mul_le_of_abs_le_one _ _ _ (by rw [abs_of_nonneg (by linarith)]; exact b)
    (Real.abs_sin_le_one _)

theorem cos_SDec_ge (j : ℝ) (h1 : -(1 / 2) ≤ j) (h2 : j ≤ 6 / 5) :
    0.9167 ≤ Real.cos (SDec j * DEG_TO_RAD) := by
  rw [cos_SDec]
  have h := abs_le.mp (abs_SDecArg_le j h1 h2)
  apply Real.le_sqrt_of_sq_le
  nlinarith [h.1, h.2]

/-- the cosine of 90.833 degrees -/
theorem cos_horizon_bounds :
    -0.01454 ≤ Real.cos (90.833 * DEG_TO_RAD) ∧ Real.cos (90.833 * DEG_TO_RAD) < 0 := by
  have e : (90.833 : ℝ) * DEG_TO_RAD = 0.833 * DEG_TO_RAD + Real.pi / 2 := by
    unfold DEG_TO_RAD; ring
  rw [e, Real.cos_add_pi_div_two]
  have p1 := Real.pi_gt_d6
  have p2 := Real.pi_lt_d6
  have x0 : 0 < (0.833 : ℝ) * DEG_TO_RAD := by unfold DEG_TO_RAD; positivity
  have x1 : (0.833 : ℝ) * DEG_TO_RAD ≤ 0.01454 := by unfold DEG_TO_RAD; nlinarith
  have s1 := Real.sin_le x0.le
  have s0 := Real.sin_pos_of_pos_of_lt_pi x0 (by linarith)
  constructor <;> linarith

theorem fdiv_of_ne (a b : ℝ) (h : b ≠ 0) : fdiv a b = some (a / b) := by
  unfold fdiv
  rw [if_neg h]

theorem acos_of_mem (x : ℝ) (h1 : -1 ≤ x) (h2 : x ≤ 1) : acos x = some (Real.arccos x) := by
  unfold acos
  rw [if_pos ⟨h1, h2⟩]

/-- the argument of `acos` for `HAS` as one quotient -/
theorem HASarg_eq (lat sdec : ℝ) (h1 : Real.cos (lat * DEG_TO_RAD) ≠ 0)
    (h2 : Real.cos (sdec * DEG_TO_RAD) ≠ 0) :
    HASarg lat sdec = some ((Real.cos (90.833 * DEG_TO_RAD) -
      Real.sin (lat * DEG_TO_RAD) * Real.sin (sdec * DEG_TO_RAD)) /
      (Real.cos (lat * DEG_TO_RAD) * Real.cos (sdec * DEG_TO_RAD))) := by
  unfold HASarg
  rw [fdiv_of_ne _ _ (mul_ne_zero h1 h2)]
  simp only [Option.map_some']
  congr 1
  rw [Real.tan_eq_sin_div_cos, Real.tan_eq_sin_div_cos]
  field_simp

theorem lat_rad_bounds (lat : ℝ) (h : |lat| ≤ 65) :
    -(Real.pi / 2 - 0.4363) ≤ lat * DEG_TO_RAD ∧ lat * DEG_TO_RAD ≤ Real.pi / 2 - 0.4363 := by
  have p1 := Real.pi_gt_d6
  have p2 := Real.pi_lt_d6
  obtain ⟨a, b⟩ := abs_le.mp h
  unfold DEG_TO_RAD
  constructor <;> nlinarith

theorem cos_lat_ge (lat : ℝ) (h : |lat| ≤ 65) : 0.4205 ≤ Real.cos (lat * DEG_TO_RAD) := by
  obtain ⟨a, b⟩ := lat_rad_bounds lat h
  have p1 := Real.pi_gt_d6
  have p2 := Real.pi_lt_d6
  have hl := sin_lower 0.4363 (by norm_num) (by norm_num)
  norm_num at hl
  have e : Real.cos (Real.pi / 2 - 0.4363) = Real.sin 0.4363 := Real.cos_pi_div_two_sub _
  have hm : Real.cos (Real.pi / 2 - 0.4363) ≤ Real.cos (|lat * DEG_TO_RAD|) :=
    Real.cos_le_cos_of_nonneg_of_le_pi (abs_nonneg _) (by linarith) (abs_le.mpr ⟨a, b⟩)
  rw [Real.cos_abs] at hm
  linarith

theorem abs_sin_lat_le (lat : ℝ) (h : |lat| ≤ 65) : |Real.sin (lat * DEG_TO_RAD)| ≤ 0.9068 := by
  obtain ⟨a, b⟩ := lat_rad_bounds lat h
  have p1 := Real.pi_gt_d6
  have p2 := Real.pi_lt_d6
  have hu := cos_upper 0.4363 (by norm_num) (by norm_num)
  norm_num at hu
  have e : Real.sin (Real.pi / 2 - 0.4363) = Real.cos 0.4363 := Real.sin_pi_div_two_sub _
  have m1 : Real.sin (lat * DEG_TO_RAD) ≤ Real.sin (Real.pi / 2 - 0.4363) :=
    Real.sin_le_sin_of_le_of_le_pi_div_two (by linarith) (by linarith) b
  have m2 : Real.sin (-(Real.pi / 2 - 0.4363)) ≤ Real.sin (lat * DEG_TO_RAD) :=
    Real.sin_le_sin_of_le_of_le_pi_div_two (by linarith) (by linarith) a
  rw [Real.sin_neg] at m2
  rw [abs_le]
  constructor <;> linarith

/-- for latitudes within 65 degrees the hour angle at sunrise is defined -/
theorem HASarg_mem (lat j : ℝ) (hl : |lat| ≤ 65) (h1 : -(1 / 2) ≤ j) (h2 : j ≤ 6 / 5) :
    ∃ x, HASarg lat (SDec j) = some x ∧ -1 ≤ x ∧ x ≤ 1 := by
  have c1 := cos_lat_ge lat hl
  have c2 := cos_SDec_ge j h1 h2
  have s1 := abs_sin_lat_le lat hl
  have s2 := abs_SDecArg_le j h1 h2
  obtain ⟨k1, k2⟩ := cos_horizon_bounds
  refine ⟨_, HASarg_eq lat (SDec j) (by linarith) (by linarith), ?_⟩
  rw [sin_SDec]
  set ca := Real.cos (lat * DEG_TO_RAD)
  set cd := Real.cos (SDec j * DEG_TO_RAD)
  have hp : 0.385 ≤ ca * cd := by nlinarith
  have hq : |Real.sin (lat * DEG_TO_RAD) * SDecArg j| ≤ 0.3622 := by
    rw [abs_mul]
    nlinarith [abs_nonneg (Real.sin (lat * DEG_TO_RAD)), abs_nonneg (SDecArg j)]
  obtain ⟨q1, q2⟩ := abs_le.mp hq
  constructor
  · rw [le_div_iff₀ (by linarith)]; linarith
  · rw [div_le_iff₀ (by linarith)]; linarith

theorem timeFracDay_of_midnight (t : ℕ) (h : t % 86400 = 0) : timeFracDay t = 0 := by
  have h1 : second t = 0 := by unfold second; omega
  have h2 : minute t = 0 := by unfold minute; omega
  have h3 : hour t = 0 := by unfold hour; omega
  unfold timeFracDay
  rw [h1, h2, h3]
  norm_num

/-- the Julian century number of 1970-12-21 00:00:00 UTC, time zone 0 -/
theorem JCN_winter : JCN 0 30585600 = -(7069 / 24350) := by
  unfold JCN JDN julianUnixEpoch offsetDay
  rw [timeFracDay_of_midnight _ (by norm_num)]
  have : unixDays 30585600 = 354 := by unfold unixDays; norm_num
  rw [this]
  norm_num

theorem floorMod_eq (x m : ℝ) (k : ℤ) (hm : 0 < m) (h1 : (k : ℝ) * m ≤ x)
    (h2 : x < ((k : ℝ) + 1) * m) : floorMod x m = x - m * k := by
  unfold floorMod
  have : ⌊x / m⌋ = k := by
    rw [Int.floor_eq_iff]
    constructor
    · rw [le_div_iff₀ hm]; exact h1
    · rw [div_lt_iff₀ hm]; exact h2
  rw [this]

theorem GMLS_winter : 269.15 ≤ GMLS (-(7069 / 24350)) ∧ GMLS (-(7069 / 24350)) ≤ 269.16 := by
  unfold GMLS
  rw [floorMod_eq _ 360 (-29) (by norm_num) (by norm_num) (by norm_num)]
  constructor <;> norm_num

theorem abs_SEC_le (j : ℝ) (h1 : -(1 / 2) ≤ j) (h2 : j ≤ 6 / 5) : |SEC j| ≤ 1.95 := by
  unfold SEC
  have a1 : |Real.sin (GMAS j * DEG_TO_RAD) * (1.914602 - (j * (0.004817 + 0.000014 * j)))|
      ≤ 1.92 := by
    rw [mul_comm]
    apply abs_mul_le_of_abs_le_one _ _ _ _ (Real.abs_sin_le_one _)
    rw [abs_le]; constructor <;> nlinarith
  have a2 : |Real.sin ((2 * GMAS j) * DEG_TO_RAD) * (0.019993 - 0.000101 * j)| ≤ 0.021 := by
    rw [mul_comm]
    apply abs_mul_le_of_abs_le_one _ _ _ _ (Real.abs_sin_le_one _)
    rw [abs_le]; constructor <;> nlinarith
  have a3 : |Real.sin ((3 * GMAS j) * DEG_TO_RAD) * 0.000289| ≤ 0.000289 := by
    rw [mul_comm]
    apply abs_mul_le_of_abs_le_one _ _ _ _ (Real.abs_sin_le_one _)
    rw [abs_le]; constructor <;> norm_num
  rw [abs_le] at a1 a2 a3 ⊢
  constructor <;> linarith [a1.1, a1.2, a2.1, a2.2, a3.1, a3.2]

theorem SAL_near_GMLS (j : ℝ) (h1 : -(1 / 2) ≤ j) (h2 : j ≤ 6 / 5) :
    GMLS j - 1.97 ≤ SAL j ∧ SAL j ≤ GMLS j + 1.97 := by
  have a := abs_le.mp (abs_SEC_le j h1 h2)
  have b1 := Real.neg_one_le_sin ((125.04 - 1934.136 * j) * DEG_TO_RAD)
  have b2 := Real.sin_le_one ((125.04 - 1934.136 * j) * DEG_TO_RAD)
  unfold SAL STL
  constructor <;> linarith [a.1, a.2]

/-- the sine of an angle within three degrees of 270 degrees -/
theorem sin_near_270 (x : ℝ) (h1 : 267 ≤ x) (h2 : x ≤ 273) :
    Real.sin (x * DEG_TO_RAD) ≤ -0.998 := by
  have p1 := Real.pi_gt_d6
  have p2 := Real.pi_lt_d6
  have e : x * DEG_TO_RAD = (x - 270) * DEG_TO_RAD + Real.pi / 2 + Real.pi := by
    unfold DEG_TO_RAD; ring
  rw [e, Real.sin_add_pi, Real.sin_add_pi_div_two]
  have hy : |(x - 270) * DEG_TO_RAD| ≤ 0.0524 := by
    unfold DEG_TO_RAD
    rw [abs_le]; constructor <;> nlinarith
  have hc := Real.one_sub_sq_div_two_le_cos (x := (x - 270) * DEG_TO_RAD)
  have hsq : ((x - 270) * DEG_TO_RAD) ^ 2 ≤ 0.0524 ^ 2 := by
    rw [← sq_abs]
    exact pow_le_pow_left₀ (abs_nonneg _) hy 2
  norm_num at hsq
  linarith

theorem SDecArg_winter : SDecArg (-(7069 / 24350)) ≤ -0.389 := by
  have h1 : -(1 / 2 : ℝ) ≤ -(7069 / 24350) := by norm_num
  have h2 : -(7069 / 24350 : ℝ) ≤ 6 / 5 := by norm_num
  obtain ⟨g1, g2⟩ := GMLS_winter
  obtain ⟨s1, s2⟩ := SAL_near_GMLS _ h1 h2
  obtain ⟨o1, o2⟩ := sin_OC_bounds _ h1 h2
  have hs := sin_near_270 (SAL (-(7069 / 24350))) (by linarith) (by linarith)
  unfold SDecArg
  nlinarith

theorem lat72 : 0 < Real.cos (72 * DEG_TO_RAD) ∧ Real.cos (72 * DEG_TO_RAD) ≤ 0.3142 ∧
    0.9506 ≤ Real.sin (72 * DEG_TO_RAD) := by
  have p1 := Real.pi_gt_d6
  have p2 := Real.pi_lt_d6
  have e : (72 : ℝ) * DEG_TO_RAD = Real.pi / 2 - Real.pi / 10 := by
    unfold DEG_TO_RAD; ring
  rw [e, Real.cos_pi_div_two_sub, Real.sin_pi_div_two_sub]
  have x0 : (0 : ℝ) < Real.pi / 10 := by positivity
  refine ⟨Real.sin_pos_of_pos_of_lt_pi x0 (by linarith), ?_, ?_⟩
  · have := Real.sin_le x0.le
    linarith
  · have := Real.one_sub_sq_div_two_le_cos (x := Real.pi / 10)
    nlinarith

/-- at latitude 72 on 1970-12-21 the argument of `acos` for `HAS` exceeds 1 -/
theorem HASarg_winter_72 : ∃ x, HASarg 72 (SDec (JCN 0 30585600)) = some x ∧ 1 < x := by
  rw [JCN_winter]
  have h1 : -(1 / 2 : ℝ) ≤ -(7069 / 24350) := by norm_num
  have h2 : -(7069 / 24350 : ℝ) ≤ 6 / 5 := by norm_num
  obtain ⟨a1, a2, a3⟩ := lat72
  have c2 := cos_SDec_ge _ h1 h2
  have c3 := Real.cos_le_one (SDec (-(7069 / 24350)) * DEG_TO_RAD)
  have s := SDecArg_winter
  obtain ⟨k1, k2⟩ := cos_horizon_bounds
  refine ⟨_, HASarg_eq 72 _ (by linarith) (by linarith), ?_⟩
  rw [sin_SDec]
  set ca := Real.cos (72 * DEG_TO_RAD)
  set cd := Real.cos (SDec (-(7069 / 24350)) * DEG_TO_RAD)
  have hp : 0 < ca * cd := by positivity
  rw [lt_div_iff₀ hp]
  nlinarith

theorem arccos_deg_bounds (x : ℝ) :
    0 ≤ Real.arccos x * RAD_TO_DEG ∧ Real.arccos x * RAD_TO_DEG ≤ 180 := by
  have h0 := Real.arccos_nonneg x
  have h1 := Real.arccos_le_pi x
  have r := RAD_TO_DEG_pos
  constructor
  · positivity
  · have e : (180 : ℝ) = Real.pi * RAD_TO_DEG := by
      unfold RAD_TO_DEG; field_simp
    rw [e]
    exact mul_le_mul_of_nonneg_right h1 r.le

theorem calcSolar_lastTime (s : SolarPos) (t : ℕ) : (calcSolar s t)._lastTime = t := by
  unfold calcSolar
  split_ifs with h
  · exact h
  · rfl

theorem calcSolar_of_eq (s : SolarPos) (t : ℕ) (h : s._lastTime = t) : calcSolar s t = s := by
  unfold calcSolar
  rw [if_pos h]

theorem calcSolar_of_ne (s : SolarPos) (t : ℕ) (h : s._lastTime ≠ t) :
    calcSolar s t =
      { s with
        _lastTime := t
        _SolarNoonTime := (recompute s._tzOffset s._lat s._lon t).solarNoonTime
        _SunriseTime := (recompute s._tzOffset s._lat s._lon t).sunriseTime
        _SunsetTime := (recompute s._tzOffset s._lat s._lon t).sunsetTime
        _SunDuration := (recompute s._tzOffset s._lat s._lon t).sunDuration
        _SEC_Corr := (recompute s._tzOffset s._lat s._lon t).secCorr
        _SAA := (recompute s._tzOffset s._lat s._lon t).saa } := by
  unfold calcSolar
  rw [if_neg h]

theorem calcSolar_idem (s : SolarPos) (t : ℕ) : calcSolar (calcSolar s t) t = calcSolar s t :=
  calcSolar_of_eq _ _ (calcSolar_lastTime s t)

theorem calcSolar_tzOffset (s : SolarPos) (t : ℕ) : (calcSolar s t)._tzOffset = s._tzOffset := by
  unfold calcSolar
  split_ifs <;> rfl

theorem calcSolar_lat (s : SolarPos) (t : ℕ) : (calcSolar s t)._lat = s._lat := by
  unfold calcSolar
  split_ifs <;> rfl

theorem calcSolar_lon (s : SolarPos) (t : ℕ) : (calcSolar s t)._lon = s._lon := by
  unfold calcSolar
  split_ifs <;> rfl

/-- with a cache that is either for another instant or valid, `calcSolar`
leaves the six fields at the values recomputed for `t` -/
theorem calcSolar_cacheValid (s : SolarPos) (t : ℕ) (h : s._lastTime = t → CacheValid s) :
    CacheValid (calcSolar s t) := by
  by_cases e : s._lastTime = t
  · rw [calcSolar_of_eq s t e]; exact h e
  · rw [calcSolar_of_ne s t e]
    exact ⟨rfl, rfl, rfl, rfl, rfl, rfl⟩

theorem calcSolar_fields (s : SolarPos) (t : ℕ) (h : s._lastTime = t → CacheValid s) :
    (calcSolar s t)._SolarNoonTime = (recompute s._tzOffset s._lat s._lon t).solarNoonTime ∧
    (calcSolar s t)._SunriseTime = (recompute s._tzOffset s._lat s._lon t).sunriseTime ∧
    (calcSolar s t)._SunsetTime = (recompute s._tzOffset s._lat s._lon t).sunsetTime ∧
    (calcSolar s t)._SunDuration = (recompute s._tzOffset s._lat s._lon t).sunDuration ∧
    (calcSolar s t)._SEC_Corr = (recompute s._tzOffset s._lat s._lon t).secCorr ∧
    (calcSolar s t)._SAA = (recompute s._tzOffset s._lat s._lon t).saa := by
  have v := calcSolar_cacheValid s t h
  unfold CacheValid at v
  rw [calcSolar_lastTime, calcSolar_tzOffset, calcSolar_lat, calcSolar_lon] at v
  exact v

/-- for latitudes within 65 degrees the hour angle at sunrise is a number -/
theorem HAS_defined (lat j : ℝ) (hl : |lat| ≤ 65) (h1 : -(1 / 2) ≤ j) (h2 : j ≤ 6 / 5) :
    ∃ h, HAS lat (SDec j) = some h := by
  obtain ⟨x, hx, x1, x2⟩ := HASarg_mem lat j hl h1 h2
  unfold HAS
  rw [hx]
  simp only [Option.some_bind]
  rw [acos_of_mem _ x1 x2]
  exact ⟨_, rfl⟩

/-- on the equator the hour angle at sunrise is a number, at least 90 degrees -/
theorem HAS_equator (j : ℝ) (h1 : -(1 / 2) ≤ j) (h2 : j ≤ 6 / 5) :
    ∃ h, HAS 0 (SDec j) = some h ∧ 90 ≤ h := by
  obtain ⟨x, hx, x1, x2⟩ := HASarg_mem 0 j (by norm_num) h1 h2
  have c2 := cos_SDec_ge j h1 h2
  obtain ⟨k1, k2⟩ := cos_horizon_bounds
  have hx' := HASarg_eq 0 (SDec j) (by simp) (by linarith)
  rw [hx] at hx'
  simp only [Option.some.injEq] at hx'
  have xneg : x ≤ 0 := by
    rw [hx']
    simp only [zero_mul, Real.sin_zero, Real.cos_zero, sub_zero, one_mul]
    exact div_nonpos_of_nonpos_of_nonneg k2.le (by linarith)
  unfold HAS
  rw [hx]
  simp only [Option.some_bind]
  rw [acos_of_mem _ x1 x2]
  refine ⟨_, rfl, ?_⟩
  have ha : Real.pi / 2 ≤ Real.arccos x := by
    unfold Real.arccos
    linarith [Real.arcsin_nonpos.mpr xneg]
  have r := RAD_TO_DEG_pos
  have e : (90 : ℝ) = Real.pi / 2 * RAD_TO_DEG := by
    unfold RAD_TO_DEG; field_simp; ring
  rw [e]
  exact mul_le_mul_of_nonneg_right ha r.le

theorem solarNoonSeconds_eq (tz : ℤ) (lon : ℝ) (t : ℕ) :
    solarNoonSeconds tz lon t =
      86400 * ((t / 86400 : ℕ) : ℝ) + 60 * (720 - 4 * lon - EOT (JCN tz t)) + 3600 * (tz : ℝ) := by
  unfold solarNoonSeconds SolarNoonfrac offsetDay unixDays
  rw [Int.cast_natCast]
  ring

theorem toUInt32_of_mem (x : ℝ) (h1 : -1 < x) (h2 : x < 2 ^ 32) : toUInt32 x = some ⌊x⌋₊ := by
  unfold toUInt32
  rw [if_pos ⟨h1, h2⟩]

theorem recompute_solarNoonTime (tz : ℤ) (lat lon : ℝ) (t : ℕ) :
    (recompute tz lat lon t).solarNoonTime = toUInt32 (solarNoonSeconds tz lon t) := rfl

/-- a fresh object built in zeroed storage, queried at an instant other than 0,
has a cache for another instant -/
theorem new_zeroMem_cache (tz : ℤ) (lat lon : ℝ) (t : ℕ) (ht : t ≠ 0) :
    (new zeroMem tz lat lon)._lastTime = t → CacheValid (new zeroMem tz lat lon) := by
  intro h
  exact absurd h.symm ht

theorem HAS_none_of_arg (lat sdec x : ℝ) (hx : HASarg lat sdec = some x) (h : 1 < x) :
    HAS lat sdec = none := by
  unfold HAS
  rw [hx]
  simp only [Option.some_bind]
  unfold acos
  rw [if_neg]
  · rfl
  · intro hh; linarith [hh.2]

theorem getSolarNoonTime_eq (s : SolarPos) (t : ℕ) (hc : s._lastTime = t → CacheValid s) :
    (getSolarNoonTime s t).1 = toUInt32 (solarNoonSeconds s._tzOffset s._lon t) := by
  unfold getSolarNoonTime
  simp only
  rw [(calcSolar_fields s t hc).1, recompute_solarNoonTime]

/-- the float of solar noon for time zone 0 and longitude 0 -/
theorem solarNoonSeconds_greenwich (t : ℕ) (ht : t < 2 ^ 32) :
    86400 * ((t / 86400 : ℕ) : ℝ) + 42060 ≤ solarNoonSeconds 0 0 t ∧
      solarNoonSeconds 0 0 t ≤ 86400 * ((t / 86400 : ℕ) : ℝ) + 44340 := by
  obtain ⟨j1, j2⟩ := JCN_bounds 0 t ht (by norm_num) (by norm_num)
  obtain ⟨e1, e2⟩ := abs_le.mp (EOT_abs_le _ j1 j2)
  rw [solarNoonSeconds_eq]
  simp only [Int.cast_zero, mul_zero, sub_zero, add_zero]
  constructor <;> linarith

/-- the solar noon that Monterey (longitude -121.904, time zone -8) gets: the
day of `t` plus a time of day between 42516 s and 44797 s -/
theorem monterey_noon (lat : ℝ) (t : ℕ) (ht : t < 4102444800) :
    ∃ n, (recompute (-8) lat (-121.904) t).solarNoonTime = some n ∧
      42516 ≤ n % 86400 ∧ n % 86400 ≤ 44797 := by
  obtain ⟨j1, j2⟩ := JCN_bounds (-8) t (by norm_num; omega) (by norm_num) (by norm_num)
  obtain ⟨e1, e2⟩ := abs_le.mp (EOT_abs_le _ j1 j2)
  have hd : t / 86400 ≤ 47481 := by omega
  have hdr : ((t / 86400 : ℕ) : ℝ) ≤ 47481 := by exact_mod_cast hd
  have hd0 : (0 : ℝ) ≤ ((t / 86400 : ℕ) : ℝ) := by positivity
  set y : ℝ := 43656.96 - 60 * EOT (JCN (-8) t) with hy
  have y1 : 42516 ≤ y := by rw [hy]; linarith
  have y2 : y < 44797 := by rw [hy]; linarith
  have hx : solarNoonSeconds (-8) (-121.904) t = y + ((86400 * (t / 86400) : ℕ) : ℝ) := by
    rw [solarNoonSeconds_eq, hy]
    push_cast
    ring
  have hfl : ⌊y + ((86400 * (t / 86400) : ℕ) : ℝ)⌋₊ = ⌊y⌋₊ + 86400 * (t / 86400) :=
    Nat.floor_add_nat (by linarith) _
  have f1 : 42516 ≤ ⌊y⌋₊ := Nat.le_floor (by exact_mod_cast y1)
  have f2 : ⌊y⌋₊ < 44797 := (Nat.floor_lt (by linarith)).mpr (by exact_mod_cast y2)
  refine ⟨⌊y⌋₊ + 86400 * (t / 86400), ?_, ?_, ?_⟩
  · rw [recompute_solarNoonTime, hx, toUInt32_of_mem, hfl]
    · have : (0:ℝ) ≤ ((86400 * (t / 86400) : ℕ) : ℝ) := by positivity
      linarith
    · have : ((86400 * (t / 86400) : ℕ) : ℝ) ≤ 86400 * 47481 := by
        push_cast; linarith
      norm_num at this ⊢
      linarith
  · omega
  · omega

theorem Query.run_eq (q : Query) (s : SolarPos) (t : ℕ) : q.run s t = calcSolar s t := by
  cases q <;> rfl

theorem Call.run_config (c : Call) (s : SolarPos) :
    (c.run s)._tzOffset = s._tzOffset ∧ (c.run s)._lat = s._lat ∧ (c.run s)._lon = s._lon := by
  cases c with
  | query q t =>
    simp only [Call.run, Query.run_eq]
    exact ⟨calcSolar_tzOffset s t, calcSolar_lat s t, calcSolar_lon s t⟩
  | gettzOffset => exact ⟨rfl, rfl, rfl⟩
  | getlat => exact ⟨rfl, rfl, rfl⟩
  | getlon => exact ⟨rfl, rfl, rfl⟩

theorem runCalls_config (s : SolarPos) (cs : List Call) :
    (runCalls s cs)._tzOffset = s._tzOffset ∧ (runCalls s cs)._lat = s._lat ∧
      (runCalls s cs)._lon = s._lon := by
  induction cs generalizing s with
  | nil => exact ⟨rfl, rfl, rfl⟩
  | cons c rest ih =>
    simp only [runCalls]
    obtain ⟨h1, h2, h3⟩ := ih (c.run s)
    obtain ⟨g1, g2, g3⟩ := Call.run_config c s
    exact ⟨h1.trans g1, h2.trans g2, h3.trans g3⟩

theorem HAS_range (lat sdec h : ℝ) (hh : HAS lat sdec = some h) : 0 ≤ h ∧ h ≤ 180 := by
  unfold HAS at hh
  rcases hx : HASarg lat sdec with _ | x
  · rw [hx] at hh; simp at hh
  · rw [hx] at hh
    simp only [Option.some_bind] at hh
    unfold acos at hh
    split_ifs at hh with hm
    · simp only [Option.map_some', Option.some.injEq] at hh
      rw [← hh]
      exact arccos_deg_bounds x
    · simp at hh

theorem recompute_sunDuration (tz : ℤ) (lat lon : ℝ) (t : ℕ) :
    (recompute tz lat lon t).sunDuration = (HAS lat (SDec (JCN tz t))).map fun h => 8 * h := rfl

theorem arccos_antitone (x y : ℝ) (h : x ≤ y) : Real.arccos y ≤ Real.arccos x := by
  unfold Real.arccos
  linarith [Real.monotone_arcsin h]

theorem DEG_TO_RAD_mul_RAD_TO_DEG : DEG_TO_RAD * RAD_TO_DEG = 1 := by
  rw [mul_comm]; exact RAD_TO_DEG_mul_DEG_TO_RAD

/-- the `acos` of the cosine of an angle between 0 and 180 degrees, in degrees -/
theorem arccos_cos_deg (x : ℝ) (h0 : 0 ≤ x) (h1 : x ≤ 180) :
    Real.arccos (Real.cos (x * DEG_TO_RAD)) * RAD_TO_DEG = x := by
  have p := Real.pi_pos
  rw [Real.arccos_cos, mul_assoc, DEG_TO_RAD_mul_RAD_TO_DEG, mul_one]
  · unfold DEG_TO_RAD; positivity
  · unfold DEG_TO_RAD
    have : x * (Real.pi / 180) = Real.pi * (x / 180) := by ring
    rw [this]
    have hx : x / 180 ≤ 1 := by linarith
    nlinarith

/-- the argument of `acos` for `HAS` on the equator -/
theorem HASarg_equator (sdec : ℝ) (h : Real.cos (sdec * DEG_TO_RAD) ≠ 0) :
    HASarg 0 sdec = some (Real.cos (90.833 * DEG_TO_RAD) / Real.cos (sdec * DEG_TO_RAD)) := by
  rw [HASarg_eq 0 sdec (by simp) h]
  simp

/-- the cosine of 90.875 degrees -/
theorem cos_90875_le : Real.cos (90.875 * DEG_TO_RAD) ≤ -0.01527 := by
  have e : (90.875 : ℝ) * DEG_TO_RAD = 0.875 * DEG_TO_RAD + Real.pi / 2 := by
    unfold DEG_TO_RAD; ring
  rw [e, Real.cos_add_pi_div_two]
  have p1 := Real.pi_gt_d6
  have p2 := Real.pi_lt_d6
  have x0 : (0.01527162 : ℝ) ≤ (0.875 : ℝ) * DEG_TO_RAD := by unfold DEG_TO_RAD; nlinarith
  have x1 : (0.875 : ℝ) * DEG_TO_RAD ≤ 0.01527164 := by unfold DEG_TO_RAD; nlinarith
  have s := Real.sin_gt_sub_cube (x := 0.875 * DEG_TO_RAD) (by linarith) (by linarith)
  have c : (0.875 * DEG_TO_RAD) ^ 3 ≤ 0.01527164 ^ 3 :=
    pow_le_pow_left₀ (by linarith) x1 3
  norm_num at c
  linarith

/-- on the equator, with a declination within 17 degrees of 0, the hour angle at
sunrise is a number between 90.833 and 90.875 degrees -/
theorem HAS_equator_near (sdec : ℝ) (hd : |sdec| ≤ 17) :
    ∃ h, HAS 0 sdec = some h ∧ 90.833 ≤ h ∧ h ≤ 90.875 ∧ (sdec = 0 → h = 90.833) := by
  have p1 := Real.pi_gt_d6
  have p2 := Real.pi_lt_d6
  obtain ⟨k1, k2⟩ := cos_horizon_bounds
  have hr : |sdec * DEG_TO_RAD| ≤ 0.2968 := by
    rw [abs_mul, abs_of_pos DEG_TO_RAD_pos]
    unfold DEG_TO_RAD
    nlinarith [abs_nonneg sdec]
  have hsq : (sdec * DEG_TO_RAD) ^ 2 ≤ 0.2968 ^ 2 := by
    rw [← sq_abs]
    exact pow_le_pow_left₀ (abs_nonneg _) hr 2
  norm_num at hsq
  have cl : 0.9559 ≤ Real.cos (sdec * DEG_TO_RAD) := by
    have := Real.one_sub_sq_div_two_le_cos (x := sdec * DEG_TO_RAD)
    linarith
  have cu := Real.cos_le_one (sdec * DEG_TO_RAD)
  set cd := Real.cos (sdec * DEG_TO_RAD) with hcd
  set c9 := Real.cos (90.833 * DEG_TO_RAD) with hc9
  have xle : c9 / cd ≤ c9 := by
    rw [div_le_iff₀ (by linarith)]
    nlinarith
  have xge : Real.cos (90.875 * DEG_TO_RAD) ≤ c9 / cd := by
    have := cos_90875_le
    rw [le_div_iff₀ (by linarith)]
    nlinarith
  have x1 : -1 ≤ c9 / cd := by
    have := cos_90875_le
    have := Real.neg_one_le_cos (90.875 * DEG_TO_RAD)
    linarith
  have x2 : c9 / cd ≤ 1 := by linarith
  have r := RAD_TO_DEG_pos
  refine ⟨Real.arccos (c9 / cd) * RAD_TO_DEG, ?_, ?_, ?_, ?_⟩
  · unfold HAS
    rw [HASarg_equator sdec (by linarith)]
    simp only [Option.some_bind]
    rw [acos_of_mem _ x1 x2]
    rfl
  · have := arccos_antitone _ _ xle
    have e := arccos_cos_deg 90.833 (by norm_num) (by norm_num)
    rw [← e]
    exact mul_le_mul_of_nonneg_right this r.le
  · have := arccos_antitone _ _ xge
    have e := arccos_cos_deg 90.875 (by norm_num) (by norm_num)
    rw [← e]
    exact mul_le_mul_of_nonneg_right this r.le
  · intro h0
    have : cd = 1 := by rw [hcd, h0]; simp
    rw [this, div_one]
    exact arccos_cos_deg 90.833 (by norm_num) (by norm_num)

/-- the Julian century number of 1970-03-21 00:00:00 UTC, time zone 0 -/
theorem JCN_spring : JCN 0 6825600 = -(21757 / 73050) := by
  unfold JCN JDN julianUnixEpoch offsetDay
  rw [timeFracDay_of_midnight _ (by norm_num)]
  have : unixDays 6825600 = 79 := by unfold unixDays; norm_num
  rw [this]
  norm_num

theorem GMLS_spring : 358.1 ≤ GMLS (-(21757 / 73050)) ∧ GMLS (-(21757 / 73050)) ≤ 358.11 := by
  unfold GMLS
  rw [floorMod_eq _ 360 (-30) (by norm_num) (by norm_num) (by norm_num)]
  constructor <;> norm_num

/-- the sine of an angle within four degrees of 360 degrees -/
theorem abs_sin_near_360 (x : ℝ) (h1 : 356 ≤ x) (h2 : x ≤ 364) :
    |Real.sin (x * DEG_TO_RAD)| ≤ 0.07 := by
  have p1 := Real.pi_gt_d6
  have p2 := Real.pi_lt_d6
  have e : x * DEG_TO_RAD = (x - 360) * DEG_TO_RAD + 2 * Real.pi := by
    unfold DEG_TO_RAD; ring
  rw [e, Real.sin_add_two_pi]
  have hy : |(x - 360) * DEG_TO_RAD| ≤ 0.07 := by
    unfold DEG_TO_RAD
    rw [abs_le]; constructor <;> nlinarith
  exact le_trans Real.abs_sin_le_abs hy

/-- a declination whose sine is at most 0.29 in absolute value is within 17
degrees of 0 -/
theorem abs_SDec_le_of_arg (j : ℝ) (h : |SDecArg j| ≤ 0.29) : |SDec j| ≤ 17 := by
  have p1 := Real.pi_gt_d6
  have p2 := Real.pi_lt_d6
  obtain ⟨a1, a2⟩ := abs_le.mp h
  have x0 : (0.2967 : ℝ) ≤ 17 * DEG_TO_RAD := by unfold DEG_TO_RAD; nlinarith
  have x1 : (17 : ℝ) * DEG_TO_RAD ≤ 0.2968 := by unfold DEG_TO_RAD; nlinarith
  have s17 : 0.29 ≤ Real.sin (17 * DEG_TO_RAD) := by
    have hm : Real.sin 0.2967 ≤ Real.sin (17 * DEG_TO_RAD) :=
      Real.sin_le_sin_of_le_of_le_pi_div_two (by linarith) (by linarith) x0
    have hl := Real.sin_gt_sub_cube (x := 0.2967) (by norm_num) (by norm_num)
    norm_num at hl
    linarith
  have hy : (17 : ℝ) * DEG_TO_RAD ∈ Set.Icc (-(Real.pi / 2)) (Real.pi / 2) :=
    ⟨by linarith, by linarith⟩
  have hy' : -((17 : ℝ) * DEG_TO_RAD) ∈ Set.Icc (-(Real.pi / 2)) (Real.pi / 2) :=
    ⟨by linarith, by linarith⟩
  have hx : SDecArg j ∈ Set.Icc (-1 : ℝ) 1 := ⟨by linarith, by linarith⟩
  have u : Real.arcsin (SDecArg j) ≤ 17 * DEG_TO_RAD :=
    (Real.arcsin_le_iff_le_sin hx hy).mpr (by linarith)
  have l : -(17 * DEG_TO_RAD) ≤ Real.arcsin (SDecArg j) :=
    (Real.le_arcsin_iff_sin_le hy' hx).mpr (by rw [Real.sin_neg]; linarith)
  have r := RAD_TO_DEG_pos
  have e : (17 : ℝ) = 17 * DEG_TO_RAD * RAD_TO_DEG := by
    rw [mul_assoc, DEG_TO_RAD_mul_RAD_TO_DEG, mul_one]
  unfold SDec
  rw [abs_le]
  constructor
  · have := mul_le_mul_of_nonneg_right l r.le
    rw [neg_mul, ← e] at this
    exact this
  · have := mul_le_mul_of_nonneg_right u r.le
    rw [← e] at this
    exact this

/-- the declination on 1970-03-21 00:00:00 UTC is within 17 degrees of 0 -/
theorem abs_SDec_spring : |SDec (JCN 0 6825600)| ≤ 17 := by
  rw [JCN_spring]
  have h1 : -(1 / 2 : ℝ) ≤ -(21757 / 73050) := by norm_num
  have h2 : -(21757 / 73050 : ℝ) ≤ 6 / 5 := by norm_num
  obtain ⟨g1, g2⟩ := GMLS_spring
  obtain ⟨s1, s2⟩ := SAL_near_GMLS _ h1 h2
  have hs := abs_sin_near_360 (SAL (-(21757 / 73050))) (by linarith) (by linarith)
  apply abs_SDec_le_of_arg
  unfold SDecArg
  rw [mul_comm]
  have := abs_mul_le_of_abs_le_one _ _ _ hs (Real.abs_sin_le_one (OC (-(21757 / 73050)) * DEG_TO_RAD))
  linarith

/-- the seconds, minutes and hours of `t` add up to the seconds of its day -/
theorem civil_time_seconds (t : ℕ) : second t + 60 * minute t + 3600 * hour t = t % 86400 := by
  unfold second minute hour
  omega

/-- the fractional day is the seconds of the day over 86400 -/
theorem timeFracDay_eq (t : ℕ) : timeFracDay t = ((t % 86400 : ℕ) : ℝ) / 86400 := by
  rw [← civil_time_seconds t]
  unfold timeFracDay
  push_cast
  ring

/-! ## The equation of time on summer dates -/

theorem vy_ge (j : ℝ) (h1 : -(1 / 2) ≤ j) (h2 : j ≤ 6 / 5) : 0.04 ≤ vy j := by
  obtain ⟨a, b⟩ := halfOC_bounds j h1 h2
  have p := Real.pi_gt_three
  have ht : (OC j / 2) * DEG_TO_RAD ≤ Real.tan ((OC j / 2) * DEG_TO_RAD) :=
    Real.le_tan (by linarith) (by linarith)
  unfold vy
  nlinarith

theorem RAD_TO_DEG_gt : 57.29 < RAD_TO_DEG := by
  unfold RAD_TO_DEG
  rw [lt_div_iff₀ Real.pi_pos]
  have := Real.pi_lt_d6
  nlinarith

theorem sin_le_poly (u r : ℝ) (h1 : -(Real.pi / 2) ≤ u) (h2 : u ≤ r) (h3 : |r| ≤ 1) :
    Real.sin u ≤ r - r ^ 3 / 6 + r ^ 4 * (5 / 96) := by
  have p := Real.pi_gt_three
  have hr : r ≤ Real.pi / 2 := by have := (abs_le.mp h3).2; linarith
  have m := Real.sin_le_sin_of_le_of_le_pi_div_two h1 hr h2
  have b := (abs_le.mp (Real.sin_bound h3)).2
  have e : |r| ^ 4 = r ^ 4 := by rw [← abs_pow]; exact abs_of_nonneg (by positivity)
  rw [e] at b
  linarith

theorem poly_le_sin (w q : ℝ) (h1 : q ≤ w) (h2 : w ≤ Real.pi / 2) (h3 : |q| ≤ 1) :
    q - q ^ 3 / 6 - q ^ 4 * (5 / 96) ≤ Real.sin w := by
  have p := Real.pi_gt_three
  have hq : -(Real.pi / 2) ≤ q := by have := (abs_le.mp h3).1; linarith
  have m := Real.sin_le_sin_of_le_of_le_pi_div_two hq h2 h1
  have b := (abs_le.mp (Real.sin_bound h3)).1
  have e : |q| ^ 4 = q ^ 4 := by rw [← abs_pow]; exact abs_of_nonneg (by positivity)
  rw [e] at b
  linarith

theorem half_le_sin (x : ℝ) (h1 : Real.pi / 6 ≤ x) (h2 : x ≤ 5 * Real.pi / 6) :
    1 / 2 ≤ Real.sin x := by
  have p := Real.pi_pos
  rcases le_or_lt x (Real.pi / 2) with h | h
  · have m := Real.sin_le_sin_of_le_of_le_pi_div_two (by linarith) h h1
    rw [Real.sin_pi_div_six] at m
    exact m
  · have m := Real.sin_le_sin_of_le_of_le_pi_div_two (x := Real.pi / 6) (y := Real.pi - x)
      (by linarith) (by linarith) (by linarith)
    rw [Real.sin_pi_div_six, Real.sin_pi_sub] at m
    exact m

theorem sin_le_of_le_pi_div_three (x : ℝ) (h1 : -(Real.pi / 2) ≤ x) (h2 : x ≤ Real.pi / 3) :
    Real.sin x ≤ 0.8661 := by
  have p := Real.pi_pos
  have m := Real.sin_le_sin_of_le_of_le_pi_div_two h1 (by linarith) h2
  rw [Real.sin_pi_div_three] at m
  have s : √3 ≤ 1.7322 := by
    rw [Real.sqrt_le_left (by norm_num)]
    norm_num
  linarith

/-- the sine of an angle of `a` to 270 degrees, from above -/
theorem sin_deg_le (θ a r : ℝ) (h1 : a ≤ θ) (h2 : θ ≤ 270)
    (hr : (180 - a) / 180 * Real.pi ≤ r) (h3 : |r| ≤ 1) :
    Real.sin (θ * DEG_TO_RAD) ≤ r - r ^ 3 / 6 + r ^ 4 * (5 / 96) := by
  have p := Real.pi_pos
  rw [← Real.sin_pi_sub]
  apply sin_le_poly _ _ _ _ h3
  · unfold DEG_TO_RAD; nlinarith
  · unfold DEG_TO_RAD; nlinarith

/-- the sine of an angle of 90 to `b` degrees, from below -/
theorem le_sin_deg (θ b q : ℝ) (h1 : 90 ≤ θ) (h2 : θ ≤ b)
    (hq : q ≤ (180 - b) / 180 * Real.pi) (h3 : |q| ≤ 1) :
    q - q ^ 3 / 6 - q ^ 4 * (5 / 96) ≤ Real.sin (θ * DEG_TO_RAD) := by
  have p := Real.pi_pos
  rw [← Real.sin_pi_sub]
  apply poly_le_sin _ _ _ _ h3
  · unfold DEG_TO_RAD; nlinarith
  · unfold DEG_TO_RAD; nlinarith

theorem cos_deg_nonpos (θ : ℝ) (h1 : 90 ≤ θ) (h2 : θ ≤ 270) : Real.cos (θ * DEG_TO_RAD) ≤ 0 := by
  have p := Real.pi_pos
  apply Real.cos_nonpos_of_pi_div_two_le_of_le
  · unfold DEG_TO_RAD; nlinarith
  · unfold DEG_TO_RAD; nlinarith

theorem sin_deg_le_neg_half (θ : ℝ) (h1 : 210 ≤ θ) (h2 : θ ≤ 330) :
    Real.sin (θ * DEG_TO_RAD) ≤ -(1 / 2) := by
  have p := Real.pi_pos
  have h := half_le_sin (θ * DEG_TO_RAD - Real.pi) (by unfold DEG_TO_RAD; nlinarith)
    (by unfold DEG_TO_RAD; nlinarith)
  rw [Real.sin_sub_pi] at h
  linarith

theorem neg_half_le_sin_deg (θ : ℝ) (h1 : 90 ≤ θ) (h2 : θ ≤ 210) :
    -(1 / 2) ≤ Real.sin (θ * DEG_TO_RAD) := by
  have p := Real.pi_pos
  have m := Real.sin_le_sin_of_le_of_le_pi_div_two (x := -(Real.pi / 6))
    (y := Real.pi - θ * DEG_TO_RAD) (by linarith) (by unfold DEG_TO_RAD; nlinarith)
    (by unfold DEG_TO_RAD; nlinarith)
  rw [Real.sin_neg, Real.sin_pi_div_six, Real.sin_pi_sub] at m
  linarith

theorem sin_deg_nonpos (θ : ℝ) (h1 : 180 ≤ θ) (h2 : θ ≤ 360) : Real.sin (θ * DEG_TO_RAD) ≤ 0 := by
  have p := Real.pi_pos
  have h := Real.sin_nonneg_of_nonneg_of_le_pi (x := θ * DEG_TO_RAD - Real.pi)
    (by unfold DEG_TO_RAD; nlinarith) (by unfold DEG_TO_RAD; nlinarith)
  rw [Real.sin_sub_pi] at h
  linarith

theorem sin_deg_ge (θ : ℝ) (h1 : 90 ≤ θ) (h2 : θ ≤ 240) :
    -0.8661 ≤ Real.sin (θ * DEG_TO_RAD) := by
  have p := Real.pi_pos
  have h := sin_le_of_le_pi_div_three (θ * DEG_TO_RAD - Real.pi)
    (by unfold DEG_TO_RAD; nlinarith) (by unfold DEG_TO_RAD; nlinarith)
  rw [Real.sin_sub_pi] at h
  linarith

theorem mul_le_mul_bounds (x lo hi s A : ℝ) (h0 : 0 ≤ lo) (h1 : lo ≤ x) (h2 : x ≤ hi)
    (h : s ≤ A) : (0 ≤ A → x * s ≤ hi * A) ∧ (A ≤ 0 → x * s ≤ lo * A) := by
  have hx : 0 ≤ x := le_trans h0 h1
  have a : x * s ≤ x * A := mul_le_mul_of_nonneg_left h hx
  constructor
  · intro hA
    exact le_trans a (mul_le_mul_of_nonneg_right h2 hA)
  · intro hA
    exact le_trans a (mul_le_mul_of_nonpos_right h1 hA)

theorem le_mul_bounds (x lo hi s B : ℝ) (h0 : 0 ≤ lo) (h1 : lo ≤ x) (h2 : x ≤ hi)
    (h : B ≤ s) : (0 ≤ B → lo * B ≤ x * s) ∧ (B ≤ 0 → hi * B ≤ x * s) := by
  have hx : 0 ≤ x := le_trans h0 h1
  have a : x * B ≤ x * s := mul_le_mul_of_nonneg_left h hx
  constructor
  · intro hB
    exact le_trans (mul_le_mul_of_nonneg_right h1 hB) a
  · intro hB
    exact le_trans (mul_le_mul_of_nonpos_right h2 hB) a

/-- the three small terms of the equation of time -/
theorem EOT_small_terms (v e s2 c3 s4 s5 S : ℝ) (v1 : 0 ≤ v) (v2 : v ≤ 0.0441) (e1 : 0 ≤ e)
    (e2 : e ≤ 0.01674) (hs : |s2| ≤ S) (a3 : |c3| ≤ 1) (a4 : |s4| ≤ 1) (a5 : |s5| ≤ 1) :
    |4 * e * v * s2 * c3| ≤ 0.002953 * S ∧ |0.5 * v * v * s4| ≤ 0.000973 ∧
      |1.25 * e * e * s5| ≤ 0.000351 := by
  have hS : 0 ≤ S := le_trans (abs_nonneg _) hs
  have ev : e * v ≤ 0.01674 * 0.0441 := mul_le_mul e2 v2 v1 (by norm_num)
  have vv : v * v ≤ 0.0441 * 0.0441 := mul_le_mul v2 v2 v1 (by norm_num)
  have ee : e * e ≤ 0.01674 * 0.01674 := mul_le_mul e2 e2 e1 (by norm_num)
  have ev0 : 0 ≤ e * v := mul_nonneg e1 v1
  have vv0 : 0 ≤ v * v := mul_nonneg v1 v1
  have ee0 : 0 ≤ e * e := mul_nonneg e1 e1
  refine ⟨?_, ?_, ?_⟩
  · apply abs_mul_le_of_abs_le_one _ _ _ _ a3
    have : 4 * e * v * s2 = (4 * (e * v)) * s2 := by ring
    rw [this, abs_mul, abs_of_nonneg (by linarith)]
    have h1 : 4 * (e * v) * |s2| ≤ 4 * (e * v) * S :=
      mul_le_mul_of_nonneg_left hs (by linarith)
    have h2 : 4 * (e * v) * S ≤ 0.002953 * S :=
      mul_le_mul_of_nonneg_right (by norm_num at ev ⊢; linarith) hS
    linarith
  · apply abs_mul_le_of_abs_le_one _ _ _ _ a4
    have : 0.5 * v * v = 0.5 * (v * v) := by ring
    rw [this, abs_of_nonneg (by linarith)]
    norm_num at vv ⊢
    linarith
  · apply abs_mul_le_of_abs_le_one _ _ _ _ a5
    have : 1.25 * e * e = 1.25 * (e * e) := by ring
    rw [this, abs_of_nonneg (by linarith)]
    norm_num at ee ⊢
    linarith

theorem EOT_scale_le (F r M : ℝ) (h : F ≤ M) (hM : 0 ≤ M) (r0 : 0 ≤ r) (r1 : r ≤ 57.3) :
    4 * (F * r) ≤ 229.2 * M := by
  have a : F * r ≤ M * r := mul_le_mul_of_nonneg_right h r0
  have b : M * r ≤ M * 57.3 := mul_le_mul_of_nonneg_left r1 hM
  linarith

theorem EOT_scale_ge (F r M : ℝ) (h : M ≤ F) (hM : M ≤ 0) (r0 : 0 ≤ r) (r1 : r ≤ 57.3) :
    229.2 * M ≤ 4 * (F * r) := by
  have a : M * r ≤ F * r := mul_le_mul_of_nonneg_right h r0
  have b : M * 57.3 ≤ M * r := mul_le_mul_of_nonpos_left r1 hM
  linarith

/-- the bracket of the equation of time, from above -/
theorem EOT_piece_le (v e s1 s2 c3 s4 s5 A B S vlo : ℝ) (hv : 0 ≤ vlo) (v1 : vlo ≤ v)
    (v2 : v ≤ 0.0441) (e1 : 0.0166 ≤ e) (e2 : e ≤ 0.01674) (hA : s1 ≤ A) (hB : B ≤ s2) (hs : |s2| ≤ S)
    (a3 : |c3| ≤ 1) (a4 : |s4| ≤ 1) (a5 : |s5| ≤ 1) :
    (0 ≤ A → 0 ≤ B → c3 ≤ 0 →
      v * s1 - 2 * e * s2 + 4 * e * v * s2 * c3 - 0.5 * v * v * s4 - 1.25 * e * e * s5 ≤
        0.0441 * A - 0.0332 * B + 0.001324) ∧
    (0 ≤ A → B ≤ 0 →
      v * s1 - 2 * e * s2 + 4 * e * v * s2 * c3 - 0.5 * v * v * s4 - 1.25 * e * e * s5 ≤
        0.0441 * A - 0.03348 * B + 0.002953 * S + 0.001324) ∧
    (A ≤ 0 → 0 ≤ B →
      v * s1 - 2 * e * s2 + 4 * e * v * s2 * c3 - 0.5 * v * v * s4 - 1.25 * e * e * s5 ≤
        vlo * A - 0.0332 * B + 0.002953 * S + 0.001324) ∧
    (A ≤ 0 → B ≤ 0 →
      v * s1 - 2 * e * s2 + 4 * e * v * s2 * c3 - 0.5 * v * v * s4 - 1.25 * e * e * s5 ≤
        vlo * A - 0.03348 * B + 0.002953 * S + 0.001324) := by
  have v0 : (0 : ℝ) ≤ v := le_trans hv v1
  have e0 : (0 : ℝ) ≤ e := by linarith only [e1]
  obtain ⟨t3, t4, t5⟩ := EOT_small_terms v e s2 c3 s4 s5 S v0 v2 e0 e2 hs a3 a4 a5
  obtain ⟨t31, t32⟩ := abs_le.mp t3
  obtain ⟨t41, t42⟩ := abs_le.mp t4
  obtain ⟨t51, t52⟩ := abs_le.mp t5
  obtain ⟨m1, m2⟩ := mul_le_mul_bounds v vlo 0.0441 s1 A hv v1 v2 hA
  obtain ⟨n1, n2⟩ := le_mul_bounds e 0.0166 0.01674 s2 B (by norm_num) e1 e2 hB
  refine ⟨?_, ?_, ?_, ?_⟩
  · intro hA0 hB0 hc
    have s20 : 0 ≤ s2 := le_trans hB0 hB
    have p : 0 ≤ 4 * e * v * s2 := by positivity
    have q : 4 * e * v * s2 * c3 ≤ 0 := mul_nonpos_of_nonneg_of_nonpos p hc
    linarith only [m1 hA0, n1 hB0, q, t41, t51]
  · intro hA0 hB0
    linarith only [m1 hA0, n2 hB0, t32, t41, t51]
  · intro hA0 hB0
    linarith only [m2 hA0, n1 hB0, t32, t41, t51]
  · intro hA0 hB0
    linarith only [m2 hA0, n2 hB0, t32, t41, t51]

/-- the bracket of the equation of time, from below -/
theorem EOT_piece_ge (v e s1 s2 c3 s4 s5 A B S vlo : ℝ) (hv : 0 ≤ vlo) (v1 : vlo ≤ v)
    (v2 : v ≤ 0.0441) (e1 : 0.0166 ≤ e) (e2 : e ≤ 0.01674) (hA : A ≤ s1) (hB : s2 ≤ B) (hs : |s2| ≤ S)
    (a3 : |c3| ≤ 1) (a4 : |s4| ≤ 1) (a5 : |s5| ≤ 1) :
    (A ≤ 0 → 0 ≤ B →
      0.0441 * A - 0.03348 * B - 0.002953 * S - 0.001324 ≤
        v * s1 - 2 * e * s2 + 4 * e * v * s2 * c3 - 0.5 * v * v * s4 - 1.25 * e * e * s5) ∧
    (A ≤ 0 → B ≤ 0 →
      0.0441 * A - 0.0332 * B - 0.002953 * S - 0.001324 ≤
        v * s1 - 2 * e * s2 + 4 * e * v * s2 * c3 - 0.5 * v * v * s4 - 1.25 * e * e * s5) := by
  have v0 : (0 : ℝ) ≤ v := le_trans hv v1
  have e0 : (0 : ℝ) ≤ e := by linarith only [e1]
  obtain ⟨t3, t4, t5⟩ := EOT_small_terms v e s2 c3 s4 s5 S v0 v2 e0 e2 hs a3 a4 a5
  obtain ⟨t31, t32⟩ := abs_le.mp t3
  obtain ⟨t41, t42⟩ := abs_le.mp t4
  obtain ⟨t51, t52⟩ := abs_le.mp t5
  obtain ⟨m1, m2⟩ := le_mul_bounds v vlo 0.0441 s1 A hv v1 v2 hA
  obtain ⟨n1, n2⟩ := mul_le_mul_bounds e 0.0166 0.01674 s2 B (by norm_num) e1 e2 hB
  refine ⟨?_, ?_⟩
  · intro hA0 hB0
    linarith only [m2 hA0, n1 hB0, t31, t42, t52]
  · intro hA0 hB0
    linarith only [m2 hA0, n2 hB0, t31, t42, t52]

theorem EOT_scale_le_neg (F r M : ℝ) (h : F ≤ M) (hM : M ≤ 0) (r0 : 57.29 ≤ r) :
    4 * (F * r) ≤ 229.16 * M := by
  have r00 : (0 : ℝ) ≤ r := le_trans (by norm_num) r0
  have a : F * r ≤ M * r := mul_le_mul_of_nonneg_right h r00
  have b : M * r ≤ M * 57.29 := mul_le_mul_of_nonpos_left r0 hM
  linarith only [a, b]

/-- the Julian century number for time zone -8 -/
theorem JCN_monterey (t : ℕ) :
    JCN (-8) t * 36525 = ((t / 86400 : ℕ) : ℝ) + timeFracDay t + 1 / 3 - 10957.5 := by
  unfold JCN JDN julianUnixEpoch offsetDay unixDays
  rw [Int.cast_natCast]
  norm_num
  ring

/-- the mean longitude after the floored modulo and the mean anomaly, when the raw
longitude is `k` turns and a rest -/
theorem GMLS_GMAS_of_raw (J : ℝ) (k : ℤ)
    (h1 : 0 ≤ 280.46646 + J * (36000.76983 + J * 0.0003032) - 360 * (k : ℝ))
    (h2 : 280.46646 + J * (36000.76983 + J * 0.0003032) - 360 * (k : ℝ) < 360) :
    GMLS J = 280.46646 + J * (36000.76983 + J * 0.0003032) - 360 * (k : ℝ) ∧
      GMAS J = GMLS J + (77.06265 - J * (1.71954 + 0.0004569 * J)) + 360 * (k : ℝ) := by
  have e : GMLS J = 280.46646 + J * (36000.76983 + J * 0.0003032) - 360 * (k : ℝ) := by
    unfold GMLS
    rw [floorMod_eq _ 360 k (by norm_num) (by linarith only [h1]) (by linarith only [h2])]
  refine ⟨e, ?_⟩
  rw [e]
  unfold GMAS
  ring

/-- mean longitude and mean anomaly on the day `ρ` of the four-year cycle `kc`,
for a day of June, July or August -/
theorem summer_longitude (J ρ : ℝ) (kc : ℕ) (hk : kc ≤ 32)
    (hJ : J * 36525 = 1461 * (kc : ℝ) + ρ + 1 / 3 - 10957.5)
    (hρ : (151 ≤ ρ ∧ ρ < 243) ∨ (516 ≤ ρ ∧ ρ < 608) ∨ (882 ≤ ρ ∧ ρ < 974) ∨
      (1247 ≤ ρ ∧ ρ < 1339)) :
    ∃ (k : ℤ) (δ : ℝ), 69 ≤ GMLS J ∧ GMLS J ≤ 162 ∧ GMAS J = GMLS J + δ + 360 * (k : ℝ) ∧
      75.3 ≤ δ ∧ δ ≤ 77.6 ∧ -(1 / 2) ≤ J ∧ J ≤ 6 / 5 := by
  have k0 : (0 : ℝ) ≤ (kc : ℝ) := Nat.cast_nonneg kc
  have k1 : (kc : ℝ) ≤ 32 := by exact_mod_cast hk
  have r1 : 151 ≤ ρ := by rcases hρ with h | h | h | h <;> linarith only [h.1]
  have r2 : ρ < 1339 := by rcases hρ with h | h | h | h <;> linarith only [h.2]
  have j1 : -0.3 ≤ J := by linarith only [hJ, k0, r1]
  have j2 : J ≤ 1.02 := by linarith only [hJ, k1, r2]
  have q0 : 0 ≤ J * J := mul_self_nonneg J
  have q1 : J * J ≤ 1.05 := by nlinarith only [j1, j2]
  have key : ∀ k : ℤ,
      69 ≤ 280.46646 + J * (36000.76983 + J * 0.0003032) - 360 * (k : ℝ) →
      280.46646 + J * (36000.76983 + J * 0.0003032) - 360 * (k : ℝ) ≤ 162 →
      ∃ (k : ℤ) (δ : ℝ), 69 ≤ GMLS J ∧ GMLS J ≤ 162 ∧
        GMAS J = GMLS J + δ + 360 * (k : ℝ) ∧
        75.3 ≤ δ ∧ δ ≤ 77.6 ∧ -(1 / 2) ≤ J ∧ J ≤ 6 / 5 := by
    intro k a b
    obtain ⟨e1, e2⟩ := GMLS_GMAS_of_raw J k (by linarith only [a]) (by linarith only [b])
    refine ⟨k, 77.06265 - J * (1.71954 + 0.0004569 * J), ?_, ?_, e2, ?_, ?_, ?_, ?_⟩
    · rw [e1]; exact a
    · rw [e1]; exact b
    · linarith only [j2, q1]
    · linarith only [j1, q0]
    · linarith only [j1]
    · linarith only [j2]
  rcases hρ with h | h | h | h
  · apply key (4 * (kc : ℤ) - 30 + 1)
    · push_cast; linarith only [hJ, k0, k1, h.1, h.2, q0, q1]
    · push_cast; linarith only [hJ, k0, k1, h.1, h.2, q0, q1]
  · apply key (4 * (kc : ℤ) - 30 + 2)
    · push_cast; linarith only [hJ, k0, k1, h.1, h.2, q0, q1]
    · push_cast; linarith only [hJ, k0, k1, h.1, h.2, q0, q1]
  · apply key (4 * (kc : ℤ) - 30 + 3)
    · push_cast; linarith only [hJ, k0, k1, h.1, h.2, q0, q1]
    · push_cast; linarith only [hJ, k0, k1, h.1, h.2, q0, q1]
  · apply key (4 * (kc : ℤ) - 30 + 4)
    · push_cast; linarith only [hJ, k0, k1, h.1, h.2, q0, q1]
    · push_cast; linarith only [hJ, k0, k1, h.1, h.2, q0, q1]

/-- the equation of time with its two leading sines written in degrees of the mean
longitude `GMLS` and of the angle `δ` from the mean longitude to the mean anomaly -/
theorem EOT_eq_of_anomaly (J δ : ℝ) (k : ℤ) (hM : GMAS J = GMLS J + δ + 360 * (k : ℝ)) :
    EOT J = 4 * ((vy J * Real.sin (2 * GMLS J * DEG_TO_RAD) -
        2 * EEO J * Real.sin ((GMLS J + δ) * DEG_TO_RAD) +
        4 * EEO J * vy J * Real.sin ((GMLS J + δ) * DEG_TO_RAD) *
          Real.cos (2 * GMLS J * DEG_TO_RAD) -
        0.5 * vy J * vy J * Real.sin (4 * (GMLS J * DEG_TO_RAD)) -
        1.25 * EEO J * EEO J * Real.sin (2 * (GMAS J * DEG_TO_RAD))) * RAD_TO_DEG) := by
  have hs2 : Real.sin (GMAS J * DEG_TO_RAD) = Real.sin ((GMLS J + δ) * DEG_TO_RAD) := by
    have : GMAS J * DEG_TO_RAD = (GMLS J + δ) * DEG_TO_RAD + (k : ℝ) * (2 * Real.pi) := by
      rw [hM]; unfold DEG_TO_RAD; ring
    rw [this, Real.sin_add_int_mul_two_pi]
  have hs1 : 2 * (GMLS J * DEG_TO_RAD) = 2 * GMLS J * DEG_TO_RAD := by ring
  unfold EOT
  rw [hs2, hs1]

/-- the equation of time on a summer date, from above -/
theorem EOT_summer_le (J δ : ℝ) (k : ℤ) (j1 : -(1 / 2) ≤ J) (j2 : J ≤ 6 / 5)
    (l1 : 69 ≤ GMLS J) (l2 : GMLS J ≤ 162) (hM : GMAS J = GMLS J + δ + 360 * (k : ℝ))
    (d1 : 75.3 ≤ δ) (d2 : δ ≤ 77.6) : EOT J ≤ 3.6 := by
  have v2 := (vy_bounds J j1 j2).2
  have v1 := vy_ge J j1 j2
  obtain ⟨e1, e2⟩ := EEO_bounds J j1 j2
  have r0 := RAD_TO_DEG_pos.le
  have r1 := RAD_TO_DEG_lt.le
  rw [EOT_eq_of_anomaly J δ k hM]
  have a2 := Real.abs_sin_le_one ((GMLS J + δ) * DEG_TO_RAD)
  have a3 := Real.abs_cos_le_one (2 * GMLS J * DEG_TO_RAD)
  have a4 := Real.abs_sin_le_one (4 * (GMLS J * DEG_TO_RAD))
  have a5 := Real.abs_sin_le_one (2 * (GMAS J * DEG_TO_RAD))
  have p2 := Real.pi_lt_d6
  have p1 := Real.pi_gt_d6
  have fin : ∀ F : ℝ, F ≤ 0.0157 → 4 * (F * RAD_TO_DEG) ≤ 3.6 := by
    intro F h
    have := EOT_scale_le F RAD_TO_DEG 0.0157 h (by norm_num) r0 r1
    linarith only [this]
  apply fin
  rcases le_or_lt (GMLS J) 73.9 with c1 | c1
  · have hA := sin_deg_le (2 * GMLS J) 138 0.7331 (by linarith only [l1])
      (by linarith only [c1]) (by linarith only [p2]) (by norm_num [abs_le])
    have hB := le_sin_deg (GMLS J + δ) 151.5 0.4974 (by linarith only [l1, d1])
      (by linarith only [c1, d2]) (by linarith only [p1]) (by norm_num [abs_le])
    have hc := cos_deg_nonpos (2 * GMLS J) (by linarith only [l1]) (by linarith only [c1])
    have h := (EOT_piece_le _ _ _ _ _ _ _ _ _ 1 0.04 (by norm_num) v1 v2 e1 e2 hA hB a2 a3 a4
      a5).1 (by norm_num) (by norm_num) hc
    exact le_trans h (by norm_num)
  rcases le_or_lt (GMLS J) 86 with c2 | c2
  · have hA := sin_deg_le (2 * GMLS J) 147.8 0.562 (by linarith only [c1])
      (by linarith only [c2]) (by linarith only [p2]) (by norm_num [abs_le])
    have hB := le_sin_deg (GMLS J + δ) 163.6 0.2862 (by linarith only [l1, d1])
      (by linarith only [c2, d2]) (by linarith only [p1]) (by norm_num [abs_le])
    have hc := cos_deg_nonpos (2 * GMLS J) (by linarith only [l1]) (by linarith only [c2])
    have h := (EOT_piece_le _ _ _ _ _ _ _ _ _ 1 0.04 (by norm_num) v1 v2 e1 e2 hA hB a2 a3 a4
      a5).1 (by norm_num) (by norm_num) hc
    exact le_trans h (by norm_num)
  rcases le_or_lt (GMLS J) 105 with c3 | c3
  · have hA := sin_deg_le (2 * GMLS J) 172 0.1397 (by linarith only [c2])
      (by linarith only [c3]) (by linarith only [p2]) (by norm_num [abs_le])
    have hB := le_sin_deg (GMLS J + δ) 182.6 (-0.0454) (by linarith only [l1, d1])
      (by linarith only [c3, d2]) (by linarith only [p2]) (by norm_num [abs_le])
    have h := (EOT_piece_le _ _ _ _ _ _ _ _ _ 1 0.04 (by norm_num) v1 v2 e1 e2 hA hB a2 a3 a4
      a5).2.1 (by norm_num) (by norm_num)
    exact le_trans h (by norm_num)
  · have hA := sin_deg_le_neg_half (2 * GMLS J) (by linarith only [c3]) (by linarith only [l2])
    have hB := sin_deg_ge (GMLS J + δ) (by linarith only [l1, d1]) (by linarith only [l2, d2])
    have h := (EOT_piece_le _ _ _ _ _ _ _ _ _ 1 0.04 (by norm_num) v1 v2 e1 e2 hA hB a2 a3 a4
      a5).2.2.2 (by norm_num) (by norm_num)
    exact le_trans h (by norm_num)

/-- the equation of time on a summer date, from below -/
theorem EOT_summer_ge (J δ : ℝ) (k : ℤ) (j1 : -(1 / 2) ≤ J) (j2 : J ≤ 6 / 5)
    (l1 : 69 ≤ GMLS J) (l2 : GMLS J ≤ 162) (hM : GMAS J = GMLS J + δ + 360 * (k : ℝ))
    (d1 : 75.3 ≤ δ) (d2 : δ ≤ 77.6) : -11.1 ≤ EOT J := by
  have v2 := (vy_bounds J j1 j2).2
  have v1 := vy_ge J j1 j2
  obtain ⟨e1, e2⟩ := EEO_bounds J j1 j2
  have r0 := RAD_TO_DEG_pos.le
  have r1 := RAD_TO_DEG_lt.le
  rw [EOT_eq_of_anomaly J δ k hM]
  have a1 := Real.neg_one_le_sin (2 * GMLS J * DEG_TO_RAD)
  have a2 := Real.abs_sin_le_one ((GMLS J + δ) * DEG_TO_RAD)
  have a3 := Real.abs_cos_le_one (2 * GMLS J * DEG_TO_RAD)
  have a4 := Real.abs_sin_le_one (4 * (GMLS J * DEG_TO_RAD))
  have a5 := Real.abs_sin_le_one (2 * (GMAS J * DEG_TO_RAD))
  have p2 := Real.pi_lt_d6
  have fin : ∀ F : ℝ, -0.0484 ≤ F → -11.1 ≤ 4 * (F * RAD_TO_DEG) := by
    intro F h
    have := EOT_scale_ge F RAD_TO_DEG (-0.0484) h (by norm_num) r0 r1
    linarith only [this]
  apply fin
  rcases le_or_lt (GMLS J) 105 with c | c
  · have hA := neg_half_le_sin_deg (2 * GMLS J) (by linarith only [l1]) (by linarith only [c])
    have hB := sin_deg_le (GMLS J + δ) 144.3 0.6231 (by linarith only [l1, d1])
      (by linarith only [c, d2]) (by linarith only [p2]) (by norm_num [abs_le])
    have h := (EOT_piece_ge _ _ _ _ _ _ _ _ _ 1 0.04 (by norm_num) v1 v2 e1 e2 hA hB a2 a3 a4
      a5).1 (by norm_num) (by norm_num)
    exact le_trans (by norm_num) h
  · have hB := sin_deg_nonpos (GMLS J + δ) (by linarith only [c, d1]) (by linarith only [l2, d2])
    have h := (EOT_piece_ge _ _ _ _ _ _ _ _ _ 1 0.04 (by norm_num) v1 v2 e1 e2 a1 hB a2 a3 a4
      a5).2 (by norm_num) (by norm_num)
    exact le_trans (by norm_num) h

theorem vy_ge_sharp (j : ℝ) (h1 : -(1 / 2) ≤ j) (h2 : j ≤ 6 / 5) : 0.0416 ≤ vy j := by
  obtain ⟨o1, o2⟩ := OC_bounds j h1 h2
  have p := Real.pi_gt_d6
  have x1 : 0.204 ≤ (OC j / 2) * DEG_TO_RAD := by unfold DEG_TO_RAD; nlinarith only [o1, p]
  have x2 := (halfOC_bounds j h1 h2).2
  have ht : (OC j / 2) * DEG_TO_RAD ≤ Real.tan ((OC j / 2) * DEG_TO_RAD) :=
    Real.le_tan (by linarith only [x1]) (by linarith only [x2, Real.pi_gt_three])
  unfold vy
  nlinarith only [x1, ht]

/-- mean longitude and mean anomaly on 2020-07-01 (day 18444), time zone -8 -/
theorem longitude_20200701 (J f : ℝ) (hJ : J * 36525 = 18444 + f + 1 / 3 - 10957.5)
    (f0 : 0 ≤ f) (f1 : f < 1) :
    ∃ (k : ℤ) (δ : ℝ), 99.8 ≤ GMLS J ∧ GMLS J ≤ 100.9 ∧
      GMAS J = GMLS J + δ + 360 * (k : ℝ) ∧
      76.7 ≤ δ ∧ δ ≤ 76.72 ∧ -(1 / 2) ≤ J ∧ J ≤ 6 / 5 := by
  have j1 : 0.2049 ≤ J := by linarith only [hJ, f0]
  have j2 : J ≤ 0.2051 := by linarith only [hJ, f1]
  have q0 : 0 ≤ J * J := mul_self_nonneg J
  have q1 : J * J ≤ 1 := by nlinarith only [j1, j2]
  have a : 99.8 ≤ 280.46646 + J * (36000.76983 + J * 0.0003032) - 360 * ((21 : ℤ) : ℝ) := by
    push_cast; linarith only [hJ, f0, q0]
  have b : 280.46646 + J * (36000.76983 + J * 0.0003032) - 360 * ((21 : ℤ) : ℝ) ≤ 100.9 := by
    push_cast; linarith only [hJ, f1, q1]
  obtain ⟨e1, e2⟩ := GMLS_GMAS_of_raw J 21 (by linarith only [a]) (by linarith only [b])
  refine ⟨21, 77.06265 - J * (1.71954 + 0.0004569 * J), ?_, ?_, e2, ?_, ?_, ?_, ?_⟩
  · rw [e1]; exact a
  · rw [e1]; exact b
  · linarith only [j2, q1]
  · linarith only [j1, q0]
  · linarith only [j1]
  · linarith only [j2]

/-- the equation of time on 2020-07-01 -/
theorem EOT_20200701 (J δ : ℝ) (k : ℤ) (j1 : -(1 / 2) ≤ J) (j2 : J ≤ 6 / 5)
    (l1 : 99.8 ≤ GMLS J) (l2 : GMLS J ≤ 100.9) (hM : GMAS J = GMLS J + δ + 360 * (k : ℝ))
    (d1 : 76.7 ≤ δ) (d2 : δ ≤ 76.72) : -4.58 ≤ EOT J ∧ EOT J ≤ -3.16 := by
  have v2 := (vy_bounds J j1 j2).2
  have v1 := vy_ge_sharp J j1 j2
  obtain ⟨e1, e2⟩ := EEO_bounds J j1 j2
  have r0 := RAD_TO_DEG_pos.le
  have r1 := RAD_TO_DEG_lt.le
  have r2 := RAD_TO_DEG_gt.le
  rw [EOT_eq_of_anomaly J δ k hM]
  have a3 := Real.abs_cos_le_one (2 * GMLS J * DEG_TO_RAD)
  have a4 := Real.abs_sin_le_one (4 * (GMLS J * DEG_TO_RAD))
  have a5 := Real.abs_sin_le_one (2 * (GMAS J * DEG_TO_RAD))
  have p2 := Real.pi_lt_d6
  have p1 := Real.pi_gt_d6
  have hA := sin_deg_le (2 * GMLS J) 199.6 (-0.342) (by linarith only [l1])
    (by linarith only [l2]) (by linarith only [p1]) (by norm_num [abs_le])
  have hA' := le_sin_deg (2 * GMLS J) 201.8 (-0.3805) (by linarith only [l1])
    (by linarith only [l2]) (by linarith only [p2]) (by norm_num [abs_le])
  have hB := sin_deg_le (GMLS J + δ) 176.5 0.0611 (by linarith only [l1, d1])
    (by linarith only [l2, d2]) (by linarith only [p2]) (by norm_num [abs_le])
  have hB' := le_sin_deg (GMLS J + δ) 177.62 0.0415 (by linarith only [l1, d1])
    (by linarith only [l2, d2]) (by linarith only [p1]) (by norm_num [abs_le])
  have a2 : |Real.sin ((GMLS J + δ) * DEG_TO_RAD)| ≤ 0.0611 := by
    rw [abs_le]
    constructor
    · exact le_trans (by norm_num) hB'
    · exact le_trans hB (by norm_num)
  constructor
  · have h := (EOT_piece_ge _ _ _ _ _ _ _ _ _ 0.0611 0.0416 (by norm_num) v1 v2 e1 e2 hA' hB a2
      a3 a4 a5).1 (by norm_num) (by norm_num)
    have := EOT_scale_ge _ RAD_TO_DEG (-0.01998) (le_trans (by norm_num) h) (by norm_num) r0 r1
    linarith only [this]
  · have h := (EOT_piece_le _ _ _ _ _ _ _ _ _ 0.0611 0.0416 (by norm_num) v1 v2 e1 e2 hA hB' a2
      a3 a4 a5).2.2.1 (by norm_num) (by norm_num)
    have := EOT_scale_le_neg _ RAD_TO_DEG (-0.01379) (le_trans h (by norm_num)) (by norm_num) r2
    linarith only [this]

/-- the equation of time at Monterey's time zone on a summer date -/
theorem EOT_monterey_summer (t : ℕ) (ht : t < 4102444800) (hs : summerDate t) :
    -11.1 ≤ EOT (JCN (-8) t) ∧ EOT (JCN (-8) t) ≤ 3.6 := by
  have f0 := timeFracDay_nonneg t
  have f1 := timeFracDay_lt_one t
  have hk : t / 86400 / 1461 ≤ 32 := by omega
  have hd : ((t / 86400 : ℕ) : ℝ) =
      1461 * ((t / 86400 / 1461 : ℕ) : ℝ) + ((t / 86400 % 1461 : ℕ) : ℝ) := by
    have := Nat.div_add_mod (t / 86400) 1461
    exact_mod_cast this.symm
  have hJ : JCN (-8) t * 36525 = 1461 * ((t / 86400 / 1461 : ℕ) : ℝ) +
      (((t / 86400 % 1461 : ℕ) : ℝ) + timeFracDay t) + 1 / 3 - 10957.5 := by
    rw [JCN_monterey, hd]; ring
  have hρ : (151 ≤ ((t / 86400 % 1461 : ℕ) : ℝ) + timeFracDay t ∧
        ((t / 86400 % 1461 : ℕ) : ℝ) + timeFracDay t < 243) ∨
      (516 ≤ ((t / 86400 % 1461 : ℕ) : ℝ) + timeFracDay t ∧
        ((t / 86400 % 1461 : ℕ) : ℝ) + timeFracDay t < 608) ∨
      (882 ≤ ((t / 86400 % 1461 : ℕ) : ℝ) + timeFracDay t ∧
        ((t / 86400 % 1461 : ℕ) : ℝ) + timeFracDay t < 974) ∨
      (1247 ≤ ((t / 86400 % 1461 : ℕ) : ℝ) + timeFracDay t ∧
        ((t / 86400 % 1461 : ℕ) : ℝ) + timeFracDay t < 1339) := by
    have cast_lo : ∀ a : ℕ, a ≤ t / 86400 % 1461 →
        (a : ℝ) ≤ ((t / 86400 % 1461 : ℕ) : ℝ) + timeFracDay t := by
      intro a h
      have : (a : ℝ) ≤ ((t / 86400 % 1461 : ℕ) : ℝ) := by exact_mod_cast h
      linarith only [this, f0]
    have cast_hi : ∀ b : ℕ, t / 86400 % 1461 < b →
        ((t / 86400 % 1461 : ℕ) : ℝ) + timeFracDay t < (b : ℝ) := by
      intro b h
      have : ((t / 86400 % 1461 : ℕ) : ℝ) + 1 ≤ (b : ℝ) := by exact_mod_cast h
      linarith only [this, f1]
    rcases hs with h | h | h | h
    · exact Or.inl ⟨by exact_mod_cast cast_lo 151 h.1, by exact_mod_cast cast_hi 243 h.2⟩
    · exact Or.inr (Or.inl ⟨by exact_mod_cast cast_lo 516 h.1, by exact_mod_cast cast_hi 608 h.2⟩)
    · exact Or.inr (Or.inr (Or.inl
        ⟨by exact_mod_cast cast_lo 882 h.1, by exact_mod_cast cast_hi 974 h.2⟩))
    · exact Or.inr (Or.inr (Or.inr
        ⟨by exact_mod_cast cast_lo 1247 h.1, by exact_mod_cast cast_hi 1339 h.2⟩))
  obtain ⟨k, δ, l1, l2, hM, d1, d2, j1, j2⟩ := summer_longitude _ _ _ hk hJ hρ
  exact ⟨EOT_summer_ge _ δ k j1 j2 l1 l2 hM d1 d2, EOT_summer_le _ δ k j1 j2 l1 l2 hM d1 d2⟩

/-- the equation of time at Monterey's time zone on 2020-07-01 -/
theorem EOT_monterey_20200701 (t : ℕ) (h : t / 86400 = 18444) :
    -4.58 ≤ EOT (JCN (-8) t) ∧ EOT (JCN (-8) t) ≤ -3.16 := by
  have hJ : JCN (-8) t * 36525 = 18444 + timeFracDay t + 1 / 3 - 10957.5 := by
    rw [JCN_monterey, h]; norm_num
  obtain ⟨k, δ, l1, l2, hM, d1, d2, j1, j2⟩ :=
    longitude_20200701 _ _ hJ (timeFracDay_nonneg t) (timeFracDay_lt_one t)
  exact EOT_20200701 _ δ k j1 j2 l1 l2 hM d1 d2

/-- the time of day of the solar noon that Monterey (longitude -121.904, time zone
-8) gets is 43656.96 s (12:07:37) minus the equation of time, in whole seconds -/
theorem monterey_noon_floor (lat : ℝ) (t : ℕ) (ht : t < 4102444800) :
    ∃ n, (recompute (-8) lat (-121.904) t).solarNoonTime = some n ∧
      n % 86400 = ⌊43656.96 - 60 * EOT (JCN (-8) t)⌋₊ := by
  obtain ⟨j1, j2⟩ := JCN_bounds (-8) t (by norm_num; omega) (by norm_num) (by norm_num)
  obtain ⟨e1, e2⟩ := abs_le.mp (EOT_abs_le _ j1 j2)
  have hd : t / 86400 ≤ 47481 := by omega
  have hdr : ((t / 86400 : ℕ) : ℝ) ≤ 47481 := by exact_mod_cast hd
  have hd0 : (0 : ℝ) ≤ ((t / 86400 : ℕ) : ℝ) := by positivity
  set y : ℝ := 43656.96 - 60 * EOT (JCN (-8) t) with hy
  have y1 : 42516 ≤ y := by rw [hy]; linarith
  have y2 : y < 44797 := by rw [hy]; linarith
  have hx : solarNoonSeconds (-8) (-121.904) t = y + ((86400 * (t / 86400) : ℕ) : ℝ) := by
    rw [solarNoonSeconds_eq, hy]
    push_cast
    ring
  have hfl : ⌊y + ((86400 * (t / 86400) : ℕ) : ℝ)⌋₊ = ⌊y⌋₊ + 86400 * (t / 86400) :=
    Nat.floor_add_nat (by linarith) _
  have f2 : ⌊y⌋₊ < 44797 := (Nat.floor_lt (by linarith)).mpr (by exact_mod_cast y2)
  refine ⟨⌊y⌋₊ + 86400 * (t / 86400), ?_, ?_⟩
  · rw [recompute_solarNoonTime, hx, toUInt32_of_mem, hfl]
    · have : (0:ℝ) ≤ ((86400 * (t / 86400) : ℕ) : ℝ) := by positivity
      linarith
    · have : ((86400 * (t / 86400) : ℕ) : ℝ) ≤ 86400 * 47481 := by
        push_cast; linarith
      norm_num at this ⊢
      linarith
  · omega

/-! ## Evaluation of the binary floating-point arithmetic -/

theorem roundHalfEven_eq (r : ℚ) (n : ℤ) (h1 : (n : ℚ) - 1 / 2 < r) (h2 : r < n + 1 / 2) :
    roundHalfEven r = n := by
  unfold roundHalfEven
  rcases le_or_lt (n : ℚ) r with h | h
  · have hf : ⌊r⌋ = n := by
      rw [Int.floor_eq_iff]
      constructor
      · exact h
      · linarith
    rw [hf, if_pos (by linarith)]
  · have hf : ⌊r⌋ = n - 1 := by
      rw [Int.floor_eq_iff]
      push_cast
      constructor
      · linarith
      · linarith
    rw [hf]
    push_cast
    rw [if_neg (by linarith), if_pos (by linarith)]
    ring

theorem binade_eq (x : ℚ) (e : ℤ) (h1 : (2 : ℚ) ^ e ≤ |x|) (h2 : |x| < (2 : ℚ) ^ (e + 1)) :
    Int.log 2 |x| = e := by
  have hpos : 0 < |x| := lt_of_lt_of_le (by positivity) h1
  apply le_antisymm
  · have := (Int.lt_zpow_iff_log_lt (b := 2) (by norm_num) hpos).mp (by exact_mod_cast h2)
    omega
  · exact (Int.zpow_le_iff_le_log (b := 2) (by norm_num) hpos).mp (by exact_mod_cast h1)

theorem roundBinary_eq (p : ℕ) (emin : ℤ) (x : ℚ) (e n : ℤ) (he : emin ≤ e)
    (h1 : (2 : ℚ) ^ e ≤ |x|) (h2 : |x| < (2 : ℚ) ^ (e + 1))
    (h3 : (n : ℚ) - 1 / 2 < x / (2 : ℚ) ^ (e - ((p : ℤ) - 1)))
    (h4 : x / (2 : ℚ) ^ (e - ((p : ℤ) - 1)) < n + 1 / 2) :
    roundBinary p emin x = n * (2 : ℚ) ^ (e - ((p : ℤ) - 1)) := by
  have hpos : 0 < |x| := lt_of_lt_of_le (by positivity) h1
  have hx : x ≠ 0 := abs_pos.mp hpos
  unfold roundBinary
  rw [if_neg hx, binade_eq x e h1 h2, max_eq_left he, roundHalfEven_eq _ n h3 h4]

theorem round32_eq (x : ℚ) (e n : ℤ) (he : -126 ≤ e)
    (h1 : (2 : ℚ) ^ e ≤ |x|) (h2 : |x| < (2 : ℚ) ^ (e + 1))
    (h3 : (n : ℚ) - 1 / 2 < x / (2 : ℚ) ^ (e - 23))
    (h4 : x / (2 : ℚ) ^ (e - 23) < n + 1 / 2) :
    round32 x = n * (2 : ℚ) ^ (e - 23) := by
  have := roundBinary_eq 24 (-126) x e n he h1 h2 (by norm_num; exact h3) (by norm_num; exact h4)
  norm_num at this
  exact this

theorem round64_eq (x : ℚ) (e n : ℤ) (he : -1022 ≤ e)
    (h1 : (2 : ℚ) ^ e ≤ |x|) (h2 : |x| < (2 : ℚ) ^ (e + 1))
    (h3 : (n : ℚ) - 1 / 2 < x / (2 : ℚ) ^ (e - 52))
    (h4 : x / (2 : ℚ) ^ (e - 52) < n + 1 / 2) :
    round64 x = n * (2 : ℚ) ^ (e - 52) := by
  have := roundBinary_eq 53 (-1022) x e n he h1 h2 (by norm_num; exact h3) (by norm_num; exact h4)
  norm_num at this
  exact this

example : round32 (1 / 10) = 13421773 / 134217728 := by
  rw [round32_eq _ (-4) 13421773 (by norm_num) (by rw [abs_of_pos (by norm_num)]; norm_num)
    (by rw [abs_of_pos (by norm_num)]; norm_num) (by norm_num) (by norm_num)]
  norm_num

theorem roundHalfEven_tie (r : ℚ) (f n : ℤ) (h : r = f + 1 / 2)
    (hn : (f % 2 = 0 ∧ n = f) ∨ (f % 2 = 1 ∧ n = f + 1)) : roundHalfEven r = n := by
  unfold roundHalfEven
  have hf : ⌊r⌋ = f := by
    rw [Int.floor_eq_iff]
    constructor <;> rw [h] <;> linarith
  rw [hf, h, if_neg (by norm_num), if_neg (by norm_num)]
  rcases hn with ⟨a, b⟩ | ⟨a, b⟩
  · rw [if_pos a, b]
  · rw [if_neg (by omega), b]

theorem roundBinary_tie (p : ℕ) (emin : ℤ) (x : ℚ) (e f n : ℤ) (he : emin ≤ e)
    (h1 : (2 : ℚ) ^ e ≤ |x|) (h2 : |x| < (2 : ℚ) ^ (e + 1))
    (h3 : x / (2 : ℚ) ^ (e - ((p : ℤ) - 1)) = f + 1 / 2)
    (hn : (f % 2 = 0 ∧ n = f) ∨ (f % 2 = 1 ∧ n = f + 1)) :
    roundBinary p emin x = n * (2 : ℚ) ^ (e - ((p : ℤ) - 1)) := by
  have hpos : 0 < |x| := lt_of_lt_of_le (by positivity) h1
  have hx : x ≠ 0 := abs_pos.mp hpos
  unfold roundBinary
  rw [if_neg hx, binade_eq x e h1 h2, max_eq_left he, roundHalfEven_tie _ f n h3 hn]

theorem round32_tie (x : ℚ) (e f n : ℤ) (he : -126 ≤ e)
    (h1 : (2 : ℚ) ^ e ≤ |x|) (h2 : |x| < (2 : ℚ) ^ (e + 1))
    (h3 : x / (2 : ℚ) ^ (e - 23) = f + 1 / 2)
    (hn : (f % 2 = 0 ∧ n = f) ∨ (f % 2 = 1 ∧ n = f + 1)) :
    round32 x = n * (2 : ℚ) ^ (e - 23) := by
  have := roundBinary_tie 24 (-126) x e f n he h1 h2 (by norm_num; exact h3) hn
  norm_num at this
  exact this

theorem floatToUInt32_of_mem (x : ℚ) (n : ℕ) (h1 : (n : ℚ) ≤ x) (h2 : x < n + 1)
    (h3 : n < 2 ^ 32) : floatToUInt32 x = some n := by
  have h0 : (0 : ℚ) ≤ x := le_trans (Nat.cast_nonneg n) h1
  have hn : ((n : ℕ) : ℚ) + 1 ≤ 2 ^ 32 := by exact_mod_cast h3
  unfold floatToUInt32
  rw [if_pos ⟨by linarith only [h0], by linarith only [h2, hn]⟩,
    (Nat.floor_eq_iff h0).mpr ⟨h1, h2⟩]

theorem floatTimeFracDay_greenwich :
    floatTimeFracDay 1578874098 = (12377857 / 2147483648) := by
  have s1 : second 1578874098 = 18 := by unfold second; norm_num
  have s2 : minute 1578874098 = 8 := by unfold minute; norm_num
  have s3 : hour 1578874098 = 0 := by unfold hour; norm_num
  have h1 : round64 (((18 : ℕ) : ℚ) / 60) = (5404319552844595 / 18014398509481984) := by
    rw [round64_eq _ (-2) 5404319552844595 (by norm_num) (le_abs.mpr (Or.inl (by norm_num)))
      (abs_lt.mpr ⟨by norm_num, by norm_num⟩) (by norm_num) (by norm_num)]
    norm_num
  have h2 : round64 ((5404319552844595 / 18014398509481984) + ((8 : ℕ) : ℚ)) =
      (2336242306698445 / 281474976710656) := by
    rw [round64_eq _ 3 4672484613396890 (by norm_num) (le_abs.mpr (Or.inl (by norm_num)))
      (abs_lt.mpr ⟨by norm_num, by norm_num⟩) (by norm_num) (by norm_num)]
    norm_num
  have h3 : round64 ((2336242306698445 / 281474976710656) / 60) =
      (4983983587623349 / 36028797018963968) := by
    rw [round64_eq _ (-3) 4983983587623349 (by norm_num) (le_abs.mpr (Or.inl (by norm_num)))
      (abs_lt.mpr ⟨by norm_num, by norm_num⟩) (by norm_num) (by norm_num)]
    norm_num
  have h4 : round64 ((4983983587623349 / 36028797018963968) + ((0 : ℕ) : ℚ)) =
      (4983983587623349 / 36028797018963968) := by
    rw [round64_eq _ (-3) 4983983587623349 (by norm_num) (le_abs.mpr (Or.inl (by norm_num)))
      (abs_lt.mpr ⟨by norm_num, by norm_num⟩) (by norm_num) (by norm_num)]
    norm_num
  have h5 : round64 ((4983983587623349 / 36028797018963968) / 24) =
      (6645311450164465 / 1152921504606846976) := by
    rw [round64_eq _ (-8) 6645311450164465 (by norm_num) (le_abs.mpr (Or.inl (by norm_num)))
      (abs_lt.mpr ⟨by norm_num, by norm_num⟩) (by norm_num) (by norm_num)]
    norm_num
  have h6 : round32 ((6645311450164465 / 1152921504606846976)) = (12377857 / 2147483648) := by
    rw [round32_eq _ (-8) 12377857 (by norm_num) (le_abs.mpr (Or.inl (by norm_num)))
      (abs_lt.mpr ⟨by norm_num, by norm_num⟩) (by norm_num) (by norm_num)]
    norm_num
  unfold floatTimeFracDay
  rw [s1, s2, s3]
  rw [h1, h2, h3, h4, h5, h6]

theorem floatRawTST_greenwich :
    floatRawTST (12377857 / 2147483648) (-(1087905 / 131072)) 0 0 = (-(59 / 1048576)) := by
  have h1 : round32 ((12377857 / 2147483648) * 1440) = (8703181 / 1048576) := by
    rw [round32_eq _ 3 8703181 (by norm_num) (le_abs.mpr (Or.inl (by norm_num)))
      (abs_lt.mpr ⟨by norm_num, by norm_num⟩) (by norm_num) (by norm_num)]
    norm_num
  have h2 : round32 ((8703181 / 1048576) + (-(1087905 / 131072))) = (-(59 / 1048576)) := by
    rw [round32_eq _ (-15) (-15466496) (by norm_num) (le_abs.mpr (Or.inr (by norm_num)))
      (abs_lt.mpr ⟨by norm_num, by norm_num⟩) (by norm_num) (by norm_num)]
    norm_num
  have h3 : round32 (4 * 0) = 0 := by
    simp [round32, roundBinary]
  have h4 : round32 ((-(59 / 1048576)) + 0) = (-(59 / 1048576)) := by
    rw [round32_eq _ (-15) (-15466496) (by norm_num) (le_abs.mpr (Or.inr (by norm_num)))
      (abs_lt.mpr ⟨by norm_num, by norm_num⟩) (by norm_num) (by norm_num)]
    norm_num
  have h5 : round32 (((60 * 0 : ℤ) : ℚ)) = 0 := by
    simp [round32, roundBinary]
  have h6 : round32 ((-(59 / 1048576)) - 0) = (-(59 / 1048576)) := by
    rw [round32_eq _ (-15) (-15466496) (by norm_num) (le_abs.mpr (Or.inr (by norm_num)))
      (abs_lt.mpr ⟨by norm_num, by norm_num⟩) (by norm_num) (by norm_num)]
    norm_num
  unfold floatRawTST
  rw [h1, h2, h3, h4, h5, h6]

theorem floatTST_greenwich :
    floatTST (-(59 / 1048576)) = 1440 := by
  have h1 : round32 ((-(59 / 1048576)) / 1440) = (-(10998397 / 281474976710656)) := by
    rw [round32_eq _ (-25) (-10998397) (by norm_num) (le_abs.mpr (Or.inr (by norm_num)))
      (abs_lt.mpr ⟨by norm_num, by norm_num⟩) (by norm_num) (by norm_num)]
    norm_num
  have h2 : ⌊((-(10998397 / 281474976710656)) : ℚ)⌋ = (-1) := by
    rw [Int.floor_eq_iff]; constructor <;> norm_num
  have h3 : round64 (1440 * (((-1) : ℤ) : ℚ)) = (-1440) := by
    rw [round64_eq _ 10 (-6333186975989760) (by norm_num) (le_abs.mpr (Or.inr (by norm_num)))
      (abs_lt.mpr ⟨by norm_num, by norm_num⟩) (by norm_num) (by norm_num)]
    norm_num
  have h4 : round64 ((-(59 / 1048576)) - (-1440)) = (1509949381 / 1048576) := by
    rw [round64_eq _ 10 6333186728525824 (by norm_num) (le_abs.mpr (Or.inl (by norm_num)))
      (abs_lt.mpr ⟨by norm_num, by norm_num⟩) (by norm_num) (by norm_num)]
    norm_num
  have h5 : round32 ((1509949381 / 1048576)) = 1440 := by
    rw [round32_eq _ 10 11796480 (by norm_num) (le_abs.mpr (Or.inl (by norm_num)))
      (abs_lt.mpr ⟨by norm_num, by norm_num⟩) (by norm_num) (by norm_num)]
    norm_num
  unfold floatTST
  rw [h1, h2, h3, h4, h5]

theorem floatOffsetDay_zero :
    floatOffsetDay 0 = 0 := by
  have h1 : round64 (((0 : ℤ) : ℚ) / 24) = 0 := by
    simp [round64, roundBinary]
  have h2 : round32 (0) = 0 := by
    simp [round32, roundBinary]
  unfold floatOffsetDay
  rw [h1, h2]

theorem floatSolarNoonfrac_polar :
    floatSolarNoonfrac 0 (16204627 / 8388608) = (16732203 / 33554432) := by
  have h1 : round32 (4 * 0) = 0 := by
    simp [round32, roundBinary]
  have h2 : round32 (720 - 0) = 720 := by
    rw [round32_eq _ 9 11796480 (by norm_num) (le_abs.mpr (Or.inl (by norm_num)))
      (abs_lt.mpr ⟨by norm_num, by norm_num⟩) (by norm_num) (by norm_num)]
    norm_num
  have h3 : round32 (720 - (16204627 / 8388608)) = (5882415 / 8192) := by
    rw [round32_eq _ 9 11764830 (by norm_num) (le_abs.mpr (Or.inl (by norm_num)))
      (abs_lt.mpr ⟨by norm_num, by norm_num⟩) (by norm_num) (by norm_num)]
    norm_num
  have h4 : round32 ((5882415 / 8192) / 1440) = (16732203 / 33554432) := by
    rw [round32_eq _ (-2) 16732203 (by norm_num) (le_abs.mpr (Or.inl (by norm_num)))
      (abs_lt.mpr ⟨by norm_num, by norm_num⟩) (by norm_num) (by norm_num)]
    norm_num
  unfold floatSolarNoonfrac
  rw [h1, h2, h3, h4]

theorem floatSolarNoonTime_polar :
    floatSolarNoonTime 18617 (16732203 / 33554432) 0 = 1608551808 := by
  have h1 : round32 (((18617 : ℤ) : ℚ)) = 18617 := by
    rw [round32_eq _ 14 9531904 (by norm_num) (le_abs.mpr (Or.inl (by norm_num)))
      (abs_lt.mpr ⟨by norm_num, by norm_num⟩) (by norm_num) (by norm_num)]
    norm_num
  have h2 : round32 (18617 + (16732203 / 33554432)) = (9532159 / 512) := by
    rw [round32_eq _ 14 9532159 (by norm_num) (le_abs.mpr (Or.inl (by norm_num)))
      (abs_lt.mpr ⟨by norm_num, by norm_num⟩) (by norm_num) (by norm_num)]
    norm_num
  have h3 : round32 ((9532159 / 512) + 0) = (9532159 / 512) := by
    rw [round32_eq _ 14 9532159 (by norm_num) (le_abs.mpr (Or.inl (by norm_num)))
      (abs_lt.mpr ⟨by norm_num, by norm_num⟩) (by norm_num) (by norm_num)]
    norm_num
  have h4 : round32 ((9532159 / 512) * 86400) = 1608551808 := by
    rw [round32_eq _ 30 12566811 (by norm_num) (le_abs.mpr (Or.inl (by norm_num)))
      (abs_lt.mpr ⟨by norm_num, by norm_num⟩) (by norm_num) (by norm_num)]
    norm_num
  unfold floatSolarNoonTime
  rw [h1, h2, h3, h4]

theorem floatSunriseTime_polar :
    floatSunriseTime 18617 (16732203 / 33554432) (15445395 / 33554432) 0 = (6434207325 / 4) := by
  have h1 : round32 ((15445395 / 33554432) * 4) = (15445395 / 8388608) := by
    rw [round32_eq _ 0 15445395 (by norm_num) (le_abs.mpr (Or.inl (by norm_num)))
      (abs_lt.mpr ⟨by norm_num, by norm_num⟩) (by norm_num) (by norm_num)]
    norm_num
  have h2 : round32 ((15445395 / 8388608) / 1440) = (343231 / 268435456) := by
    rw [round32_eq _ (-10) 10983392 (by norm_num) (le_abs.mpr (Or.inl (by norm_num)))
      (abs_lt.mpr ⟨by norm_num, by norm_num⟩) (by norm_num) (by norm_num)]
    norm_num
  have h3 : round32 ((16732203 / 33554432) - (343231 / 268435456)) = (16689299 / 33554432) := by
    rw [round32_eq _ (-2) 16689299 (by norm_num) (le_abs.mpr (Or.inl (by norm_num)))
      (abs_lt.mpr ⟨by norm_num, by norm_num⟩) (by norm_num) (by norm_num)]
    norm_num
  have h4 : round32 (((18617 : ℤ) : ℚ)) = 18617 := by
    rw [round32_eq _ 14 9531904 (by norm_num) (le_abs.mpr (Or.inl (by norm_num)))
      (abs_lt.mpr ⟨by norm_num, by norm_num⟩) (by norm_num) (by norm_num)]
    norm_num
  have h5 : round32 ((16689299 / 33554432) + 18617) = (9532159 / 512) := by
    rw [round32_eq _ 14 9532159 (by norm_num) (le_abs.mpr (Or.inl (by norm_num)))
      (abs_lt.mpr ⟨by norm_num, by norm_num⟩) (by norm_num) (by norm_num)]
    norm_num
  have h6 : round32 ((9532159 / 512) + 0) = (9532159 / 512) := by
    rw [round32_eq _ 14 9532159 (by norm_num) (le_abs.mpr (Or.inl (by norm_num)))
      (abs_lt.mpr ⟨by norm_num, by norm_num⟩) (by norm_num) (by norm_num)]
    norm_num
  have h7 : round64 ((9532159 / 512) * 86400) = (6434207325 / 4) := by
    rw [round64_eq _ 30 6746755380019200 (by norm_num) (le_abs.mpr (Or.inl (by norm_num)))
      (abs_lt.mpr ⟨by norm_num, by norm_num⟩) (by norm_num) (by norm_num)]
    norm_num
  unfold floatSunriseTime
  rw [h1, h2, h3, h4, h5, h6, h7]

theorem floatOffsetDay_monterey :
    floatOffsetDay (-8) = (-(11184811 / 33554432)) := by
  have h1 : round64 ((((-8) : ℤ) : ℚ) / 24) = (-(6004799503160661 / 18014398509481984)) := by
    rw [round64_eq _ (-2) (-6004799503160661) (by norm_num) (le_abs.mpr (Or.inr (by norm_num)))
      (abs_lt.mpr ⟨by norm_num, by norm_num⟩) (by norm_num) (by norm_num)]
    norm_num
  have h2 : round32 ((-(6004799503160661 / 18014398509481984))) = (-(11184811 / 33554432)) := by
    rw [round32_eq _ (-2) (-11184811) (by norm_num) (le_abs.mpr (Or.inr (by norm_num)))
      (abs_lt.mpr ⟨by norm_num, by norm_num⟩) (by norm_num) (by norm_num)]
    norm_num
  unfold floatOffsetDay
  rw [h1, h2]

theorem floatSolarNoonfrac_monterey :
    floatSolarNoonfrac (-(15978201 / 131072)) (-(8437657 / 2097152)) = (7058311 / 8388608) := by
  have h1 : round32 (4 * (-(15978201 / 131072))) = (-(15978201 / 32768)) := by
    rw [round32_eq _ 8 (-15978201) (by norm_num) (le_abs.mpr (Or.inr (by norm_num)))
      (abs_lt.mpr ⟨by norm_num, by norm_num⟩) (by norm_num) (by norm_num)]
    norm_num
  have h2 : round32 (720 - (-(15978201 / 32768))) = (4946395 / 4096) := by
    rw [round32_eq _ 10 9892790 (by norm_num) (le_abs.mpr (Or.inl (by norm_num)))
      (abs_lt.mpr ⟨by norm_num, by norm_num⟩) (by norm_num) (by norm_num)]
    norm_num
  have h3 : round32 ((4946395 / 4096) - (-(8437657 / 2097152))) = (4962875 / 4096) := by
    rw [round32_eq _ 10 9925750 (by norm_num) (le_abs.mpr (Or.inl (by norm_num)))
      (abs_lt.mpr ⟨by norm_num, by norm_num⟩) (by norm_num) (by norm_num)]
    norm_num
  have h4 : round32 ((4962875 / 4096) / 1440) = (7058311 / 8388608) := by
    rw [round32_eq _ (-1) 14116622 (by norm_num) (le_abs.mpr (Or.inl (by norm_num)))
      (abs_lt.mpr ⟨by norm_num, by norm_num⟩) (by norm_num) (by norm_num)]
    norm_num
  unfold floatSolarNoonfrac
  rw [h1, h2, h3, h4]

theorem floatSolarNoonTime_monterey :
    floatSolarNoonTime 18444 (7058311 / 8388608) (-(11184811 / 33554432)) = 1593605504 := by
  have h1 : round32 (((18444 : ℤ) : ℚ)) = 18444 := by
    rw [round32_eq _ 14 9443328 (by norm_num) (le_abs.mpr (Or.inl (by norm_num)))
      (abs_lt.mpr ⟨by norm_num, by norm_num⟩) (by norm_num) (by norm_num)]
    norm_num
  have h2 : round32 (18444 + (7058311 / 8388608)) = (9443759 / 512) := by
    rw [round32_eq _ 14 9443759 (by norm_num) (le_abs.mpr (Or.inl (by norm_num)))
      (abs_lt.mpr ⟨by norm_num, by norm_num⟩) (by norm_num) (by norm_num)]
    norm_num
  have h3 : round32 ((9443759 / 512) + (-(11184811 / 33554432))) = (2360897 / 128) := by
    rw [round32_eq _ 14 9443588 (by norm_num) (le_abs.mpr (Or.inl (by norm_num)))
      (abs_lt.mpr ⟨by norm_num, by norm_num⟩) (by norm_num) (by norm_num)]
    norm_num
  have h4 : round32 ((2360897 / 128) * 86400) = 1593605504 := by
    rw [round32_eq _ 30 12450043 (by norm_num) (le_abs.mpr (Or.inl (by norm_num)))
      (abs_lt.mpr ⟨by norm_num, by norm_num⟩) (by norm_num) (by norm_num)]
    norm_num
  unfold floatSolarNoonTime
  rw [h1, h2, h3, h4]

theorem floatSunriseTime_monterey :
    floatSunriseTime 18444 (7058311 / 8388608) (14367243 / 131072) (-(11184811 / 33554432)) =
      1593579150 := by
  have h1 : round32 ((14367243 / 131072) * 4) = (14367243 / 32768) := by
    rw [round32_eq _ 8 14367243 (by norm_num) (le_abs.mpr (Or.inl (by norm_num)))
      (abs_lt.mpr ⟨by norm_num, by norm_num⟩) (by norm_num) (by norm_num)]
    norm_num
  have h2 : round32 ((14367243 / 32768) / 1440) = (5108353 / 16777216) := by
    rw [round32_eq _ (-2) 10216706 (by norm_num) (le_abs.mpr (Or.inl (by norm_num)))
      (abs_lt.mpr ⟨by norm_num, by norm_num⟩) (by norm_num) (by norm_num)]
    norm_num
  have h3 : round32 ((7058311 / 8388608) - (5108353 / 16777216)) = (9008269 / 16777216) := by
    rw [round32_eq _ (-1) 9008269 (by norm_num) (le_abs.mpr (Or.inl (by norm_num)))
      (abs_lt.mpr ⟨by norm_num, by norm_num⟩) (by norm_num) (by norm_num)]
    norm_num
  have h4 : round32 (((18444 : ℤ) : ℚ)) = 18444 := by
    rw [round32_eq _ 14 9443328 (by norm_num) (le_abs.mpr (Or.inl (by norm_num)))
      (abs_lt.mpr ⟨by norm_num, by norm_num⟩) (by norm_num) (by norm_num)]
    norm_num
  have h5 : round32 ((9008269 / 16777216) + 18444) = (9443603 / 512) := by
    rw [round32_eq _ 14 9443603 (by norm_num) (le_abs.mpr (Or.inl (by norm_num)))
      (abs_lt.mpr ⟨by norm_num, by norm_num⟩) (by norm_num) (by norm_num)]
    norm_num
  have h6 : round32 ((9443603 / 512) + (-(11184811 / 33554432))) = (1180429 / 64) := by
    rw [round32_eq _ 14 9443432 (by norm_num) (le_abs.mpr (Or.inl (by norm_num)))
      (abs_lt.mpr ⟨by norm_num, by norm_num⟩) (by norm_num) (by norm_num)]
    norm_num
  have h7 : round64 ((1180429 / 64) * 86400) = 1593579150 := by
    rw [round64_eq _ 30 6683955403161600 (by norm_num) (le_abs.mpr (Or.inl (by norm_num)))
      (abs_lt.mpr ⟨by norm_num, by norm_num⟩) (by norm_num) (by norm_num)]
    norm_num
  unfold floatSunriseTime
  rw [h1, h2, h3, h4, h5, h6, h7]

theorem floatSunsetTime_monterey :
    floatSunsetTime 18444 (7058311 / 8388608) (14367243 / 131072) (-(11184811 / 33554432)) =
      1593631800 := by
  have h1 : round32 ((14367243 / 131072) * 4) = (14367243 / 32768) := by
    rw [round32_eq _ 8 14367243 (by norm_num) (le_abs.mpr (Or.inl (by norm_num)))
      (abs_lt.mpr ⟨by norm_num, by norm_num⟩) (by norm_num) (by norm_num)]
    norm_num
  have h2 : round32 ((14367243 / 32768) / 1440) = (5108353 / 16777216) := by
    rw [round32_eq _ (-2) 10216706 (by norm_num) (le_abs.mpr (Or.inl (by norm_num)))
      (abs_lt.mpr ⟨by norm_num, by norm_num⟩) (by norm_num) (by norm_num)]
    norm_num
  have h3 : round32 ((7058311 / 8388608) + (5108353 / 16777216)) = (1201561 / 1048576) := by
    rw [round32_tie _ 0 9612487 9612488 (by norm_num) (le_abs.mpr (Or.inl (by norm_num)))
      (abs_lt.mpr ⟨by norm_num, by norm_num⟩) (by norm_num) (by decide)]
    norm_num
  have h4 : round32 (((18444 : ℤ) : ℚ)) = 18444 := by
    rw [round32_eq _ 14 9443328 (by norm_num) (le_abs.mpr (Or.inl (by norm_num)))
      (abs_lt.mpr ⟨by norm_num, by norm_num⟩) (by norm_num) (by norm_num)]
    norm_num
  have h5 : round32 ((1201561 / 1048576) + 18444) = (9443915 / 512) := by
    rw [round32_eq _ 14 9443915 (by norm_num) (le_abs.mpr (Or.inl (by norm_num)))
      (abs_lt.mpr ⟨by norm_num, by norm_num⟩) (by norm_num) (by norm_num)]
    norm_num
  have h6 : round32 ((9443915 / 512) + (-(11184811 / 33554432))) = (295117 / 16) := by
    rw [round32_eq _ 14 9443744 (by norm_num) (le_abs.mpr (Or.inl (by norm_num)))
      (abs_lt.mpr ⟨by norm_num, by norm_num⟩) (by norm_num) (by norm_num)]
    norm_num
  have h7 : round64 ((295117 / 16) * 86400) = 1593631800 := by
    rw [round64_eq _ 30 6684176233267200 (by norm_num) (le_abs.mpr (Or.inl (by norm_num)))
      (abs_lt.mpr ⟨by norm_num, by norm_num⟩) (by norm_num) (by norm_num)]
    norm_num
  unfold floatSunsetTime
  rw [h1, h2, h3, h4, h5, h6, h7]

theorem floatSunDuration_monterey :
    floatSunDuration (14367243 / 131072) = (14367243 / 16384) := by
  have h1 : round32 (8 * (14367243 / 131072)) = (14367243 / 16384) := by
    rw [round32_eq _ 9 14367243 (by norm_num) (le_abs.mpr (Or.inl (by norm_num)))
      (abs_lt.mpr ⟨by norm_num, by norm_num⟩) (by norm_num) (by norm_num)]
    norm_num
  unfold floatSunDuration
  rw [h1]

theorem round32_monterey_lon :
    round32 (round64 (-121.904)) = (-(15978201 / 131072)) := by
  have h1 : round64 (-121.904) = (-(268069730944811 / 2199023255552)) := by
    rw [round64_eq _ 6 (-8578231390233952) (by norm_num) (le_abs.mpr (Or.inr (by norm_num)))
      (abs_lt.mpr ⟨by norm_num, by norm_num⟩) (by norm_num) (by norm_num)]
    norm_num
  have h2 : round32 ((-(268069730944811 / 2199023255552))) = (-(15978201 / 131072)) := by
    rw [round32_eq _ 6 (-15978201) (by norm_num) (le_abs.mpr (Or.inr (by norm_num)))
      (abs_lt.mpr ⟨by norm_num, by norm_num⟩) (by norm_num) (by norm_num)]
    norm_num
  rw [h1, h2]

theorem floatHA_1440 : floatHA 1440 = some 180 := by
  have h1 : round32 (1440 / 4) = 360 := by
    rw [round32_eq _ 8 11796480 (by norm_num) (le_abs.mpr (Or.inl (by norm_num)))
      (abs_lt.mpr ⟨by norm_num, by norm_num⟩) (by norm_num) (by norm_num)]
    norm_num
  have h2 : round32 (360 - 180) = 180 := by
    rw [round32_eq _ 7 11796480 (by norm_num) (le_abs.mpr (Or.inl (by norm_num)))
      (abs_lt.mpr ⟨by norm_num, by norm_num⟩) (by norm_num) (by norm_num)]
    norm_num
  unfold floatHA
  rw [h1, if_neg (by norm_num), if_pos (by norm_num), h2]

/-! ## The azimuth at a rounded zenith angle -/

/-- the quotient that the azimuth computation passes to `acos`, when the zenith angle
`z` is below the difference of latitude and declination: it is defined and above 1 -/
theorem azimuth_quotient_gt_one (lat sdec z : ℝ) (h1 : 0 < lat) (h2 : lat < 90) (h3 : 0 < z)
    (h4 : z < 180) (h5 : -90 ≤ sdec) (h6 : sdec < lat - z) :
    ∃ q, fdiv (Real.sin (lat * DEG_TO_RAD) * Real.cos (z * DEG_TO_RAD) -
        Real.sin (sdec * DEG_TO_RAD))
      (Real.cos (lat * DEG_TO_RAD) * Real.sin (z * DEG_TO_RAD)) = some q ∧ 1 < q := by
  have p := Real.pi_pos
  have hc : 0 < Real.cos (lat * DEG_TO_RAD) :=
    Real.cos_pos_of_mem_Ioo ⟨by unfold DEG_TO_RAD; nlinarith, by unfold DEG_TO_RAD; nlinarith⟩
  have hs : 0 < Real.sin (z * DEG_TO_RAD) :=
    Real.sin_pos_of_pos_of_lt_pi (by unfold DEG_TO_RAD; positivity)
      (by unfold DEG_TO_RAD; nlinarith)
  have hden : 0 < Real.cos (lat * DEG_TO_RAD) * Real.sin (z * DEG_TO_RAD) := mul_pos hc hs
  have hm : Real.sin (sdec * DEG_TO_RAD) < Real.sin (lat * DEG_TO_RAD - z * DEG_TO_RAD) :=
    Real.sin_lt_sin_of_lt_of_le_pi_div_two (by unfold DEG_TO_RAD; nlinarith)
      (by unfold DEG_TO_RAD; nlinarith) (by unfold DEG_TO_RAD; nlinarith)
  rw [Real.sin_sub] at hm
  refine ⟨_, fdiv_of_ne _ _ hden.ne', ?_⟩
  rw [one_lt_div hden]
  linarith only [hm]

theorem azimuthAcos_none_of_quotient (lat sdec z q : ℝ)
    (h : fdiv (Real.sin (lat * DEG_TO_RAD) * Real.cos (z * DEG_TO_RAD) -
        Real.sin (sdec * DEG_TO_RAD))
      (Real.cos (lat * DEG_TO_RAD) * Real.sin (z * DEG_TO_RAD)) = some q) (hq : 1 < q) :
    azimuthAcos lat sdec z = none := by
  unfold azimuthAcos
  rw [h]
  have : acos q = none := by
    unfold acos
    rw [if_neg]
    intro hh
    linarith only [hh.2, hq]
  simp [this]

/-- the azimuth at the binary32 zenith angle of latitude 45 on 2020-01-02 -/
theorem azimuthAcos_rounded_zenith :
    azimuthAcos 45 (-(12024717 / 524288)) (8904419 / 131072) = none := by
  obtain ⟨q, h, hq⟩ := azimuth_quotient_gt_one 45 (-(12024717 / 524288)) (8904419 / 131072)
    (by norm_num) (by norm_num) (by norm_num) (by norm_num) (by norm_num) (by norm_num)
  exact azimuthAcos_none_of_quotient _ _ _ q h hq

/-! ## The claims -/

/-- C1 (the code at the failing input): an object built in zeroed storage with
configuration `(0, 0, 0)` is queried for solar noon at `t = 43200`, reconfigured
to `(0, 0, 1)` and queried again at `t = 43200`.  The second query returns the
value of the first, which is not the value for configuration `(0, 0, 1)`. -/
theorem reconfigure_keeps_stale_value :
    (getSolarNoonTime
        (initSolarCalc (getSolarNoonTime (new zeroMem 0 0 0) 43200).2 0 0 1) 43200).1 =
      (getSolarNoonTime (new zeroMem 0 0 0) 43200).1 ∧
    (getSolarNoonTime
        (initSolarCalc (getSolarNoonTime (new zeroMem 0 0 0) 43200).2 0 0 1) 43200).1 ≠
      (getSolarNoonTime (new zeroMem 0 0 1) 43200).1 := by
  have hstale : (getSolarNoonTime
        (initSolarCalc (getSolarNoonTime (new zeroMem 0 0 0) 43200).2 0 0 1) 43200).1 =
      (getSolarNoonTime (new zeroMem 0 0 0) 43200).1 := by
    unfold getSolarNoonTime
    simp only
    rw [calcSolar_of_eq (initSolarCalc (calcSolar (new zeroMem 0 0 0) 43200) 0 0 1) 43200
      (calcSolar_lastTime _ _)]
    rfl
  refine ⟨hstale, ?_⟩
  rw [hstale, getSolarNoonTime_eq _ _ (new_zeroMem_cache 0 0 0 43200 (by norm_num)),
    getSolarNoonTime_eq _ _ (new_zeroMem_cache 0 0 1 43200 (by norm_num))]
  change toUInt32 (solarNoonSeconds 0 0 43200) ≠ toUInt32 (solarNoonSeconds 0 1 43200)
  obtain ⟨n1, n2⟩ := solarNoonSeconds_greenwich 43200 (by norm_num)
  norm_num at n1 n2
  have e : solarNoonSeconds 0 1 43200 = solarNoonSeconds 0 0 43200 - (240 : ℕ) := by
    rw [solarNoonSeconds_eq, solarNoonSeconds_eq]
    push_cast
    ring
  rw [toUInt32_of_mem _ (by linarith) (by norm_num; linarith), e,
    toUInt32_of_mem _ (by push_cast; linarith) (by push_cast; norm_num; linarith),
    Nat.floor_sub_nat]
  have f : 42060 ≤ ⌊solarNoonSeconds 0 0 43200⌋₊ := Nat.le_floor (by exact_mod_cast n1)
  intro h
  simp only [Option.some.injEq] at h
  omega

/-- C2: for every state of the object and every instant `t`, each of the six
queries called twice in a row with `t` returns the same value both times and
leaves the object after the second call equal to the object after the first. -/
theorem query_twice_same (s : SolarPos) (t : ℕ) :
    getSolarNoonTime (getSolarNoonTime s t).2 t = getSolarNoonTime s t ∧
    getSunriseTime (getSunriseTime s t).2 t = getSunriseTime s t ∧
    getSunsetTime (getSunsetTime s t).2 t = getSunsetTime s t ∧
    getSunDuration (getSunDuration s t).2 t = getSunDuration s t ∧
    getSEC_Corr (getSEC_Corr s t).2 t = getSEC_Corr s t ∧
    getSAA (getSAA s t).2 t = getSAA s t := by
  unfold getSolarNoonTime getSunriseTime getSunsetTime getSunDuration getSEC_Corr getSAA
  simp only [calcSolar_idem, and_self]

/-- C3 (the code at the failing input): an object built in zeroed storage
(`_lastTime = 0`) and first queried at `t = 0` returns the zero that the storage
held, not the value computed from the configuration and `t`. -/
theorem first_query_returns_unpopulated_field :
    (getSolarNoonTime (new zeroMem 0 0 0) 0).1 = some 0 ∧
    (recompute 0 0 0 0).solarNoonTime ≠ some 0 := by
  constructor
  · unfold getSolarNoonTime
    simp only
    rw [calcSolar_of_eq (new zeroMem 0 0 0) 0 rfl]
    rfl
  · rw [recompute_solarNoonTime]
    obtain ⟨n1, n2⟩ := solarNoonSeconds_greenwich 0 (by norm_num)
    norm_num at n1 n2
    rw [toUInt32_of_mem _ (by linarith) (by norm_num; linarith)]
    have f : 42060 ≤ ⌊solarNoonSeconds 0 0 0⌋₊ := Nat.le_floor (by exact_mod_cast n1)
    intro h
    simp only [Option.some.injEq] at h
    omega

/-- C4: after `initSolarCalc tz lat lon`, and then after any sequence of calls of
the six queries (with arbitrary instants) and the three accessors, `gettzOffset`,
`getlat` and `getlon` return exactly `tz`, `lat` and `lon`; and an accessor
leaves every field of the object as it was. -/
theorem config_frame (s : SolarPos) (tz : ℤ) (lat lon : ℝ) (cs : List Call) :
    (gettzOffset (runCalls (initSolarCalc s tz lat lon) cs)).1 = tz ∧
    (getlat (runCalls (initSolarCalc s tz lat lon) cs)).1 = lat ∧
    (getlon (runCalls (initSolarCalc s tz lat lon) cs)).1 = lon ∧
    (∀ u : SolarPos, (gettzOffset u).2 = u ∧ (getlat u).2 = u ∧ (getlon u).2 = u) := by
  obtain ⟨h1, h2, h3⟩ := runCalls_config (initSolarCalc s tz lat lon) cs
  exact ⟨h1, h2, h3, fun _ => ⟨rfl, rfl, rfl⟩⟩

/-- C5 (code bug): latitude 45, longitude 0, time zone offset 0 and
`t = 1577966624` (2020-01-02 12:03:44).  `calcSolar` holds there the binary32 values
`SDec = -12024717 / 524288` (-22.935327529907227), `SZA = 8904419 / 131072`
(67.9353256225586, a valid zenith angle) and `HA = -991 / 65536`
(-0.0151214599609375).  The zenith angle, rounded to binary32, is below
`lat - SDec`, so the quotient of the azimuth computation has a divisor that is not
zero and is above 1: `acos` has no number for it, and the azimuth is no number
instead of a number in `[0, 360)`. -/
theorem azimuth_not_a_number :
    (∃ q, fdiv (Real.sin (45 * DEG_TO_RAD) * Real.cos (8904419 / 131072 * DEG_TO_RAD) -
          Real.sin (-(12024717 / 524288) * DEG_TO_RAD))
        (Real.cos (45 * DEG_TO_RAD) * Real.sin (8904419 / 131072 * DEG_TO_RAD)) = some q ∧
        1 < q) ∧
      SAA 45 (-(12024717 / 524288)) (8904419 / 131072) (-(991 / 65536)) = none := by
  refine ⟨azimuth_quotient_gt_one 45 (-(12024717 / 524288)) (8904419 / 131072)
    (by norm_num) (by norm_num) (by norm_num) (by norm_num) (by norm_num) (by norm_num), ?_⟩
  unfold SAA rawSAA
  rw [azimuthAcos_rounded_zenith]
  split <;> rfl

/-- C6: for every object whose cache is for another instant or valid, and every
instant `t` at which the hour angle at sunrise `HAS` is a number `h`: `h` lies
in `[0, 180]` and `getSunDuration t` returns `8 * h`, which lies in
`[0, 1440]`. -/
theorem getSunDuration_eq (s : SolarPos) (t : ℕ) (h : ℝ) (hc : s._lastTime = t → CacheValid s)
    (hh : HAS s._lat (SDec (JCN s._tzOffset t)) = some h) :
    0 ≤ h ∧ h ≤ 180 ∧ (getSunDuration s t).1 = some (8 * h) ∧ 0 ≤ 8 * h ∧ 8 * h ≤ 1440 := by
  obtain ⟨h0, h1⟩ := HAS_range _ _ _ hh
  refine ⟨h0, h1, ?_, by linarith, by linarith⟩
  unfold getSunDuration
  simp only
  rw [(calcSolar_fields s t hc).2.2.2.1, recompute_sunDuration, hh]
  rfl

/-- Witness of C6: on the equator at 1970-01-02 12:00:00 the hour angle at
sunrise is a number and the day length is eight times it. -/
theorem getSunDuration_eq_witness :
    ∃ h, HAS (new zeroMem 0 0 0)._lat (SDec (JCN (new zeroMem 0 0 0)._tzOffset 129600)) = some h ∧
      0 ≤ h ∧ h ≤ 180 ∧ (getSunDuration (new zeroMem 0 0 0) 129600).1 = some (8 * h) ∧
      0 ≤ 8 * h ∧ 8 * h ≤ 1440 := by
  obtain ⟨j1, j2⟩ := JCN_bounds 0 129600 (by norm_num) (by norm_num) (by norm_num)
  obtain ⟨h, hh, -⟩ := HAS_equator _ j1 j2
  exact ⟨h, hh, getSunDuration_eq (new zeroMem 0 0 0) 129600 h
    (new_zeroMem_cache 0 0 0 129600 (by norm_num)) hh⟩

/-- C7 (code bug): latitude 67.396, longitude 0, time zone offset 0 and
`t = 1608508800` (2020-12-21 00:00:00), where `EOT` is the binary32 value
`16204627 / 8388608` (1.9317420721054077) and `HAS` is the binary32 value
`15445395 / 33554432` (0.46030864119529724 degrees, so sunrise is 110 s before solar
noon in exact arithmetic).  The binary32 product of line 97 gives the solar noon
1608551808 and the binary64 product of line 100 gives the sunrise 1608551831:
the sunrise that `calcSolar` stores is after the solar noon that it stores. -/
theorem sunrise_after_solar_noon :
    floatToUInt32 (floatSolarNoonTime (unixDays 1608508800)
        (floatSolarNoonfrac 0 (16204627 / 8388608)) (floatOffsetDay 0)) = some 1608551808 ∧
      floatToUInt32 (floatSunriseTime (unixDays 1608508800)
        (floatSolarNoonfrac 0 (16204627 / 8388608)) (15445395 / 33554432)
        (floatOffsetDay 0)) = some 1608551831 := by
  have hu : unixDays 1608508800 = 18617 := by unfold unixDays; norm_num
  rw [hu, floatSolarNoonfrac_polar, floatOffsetDay_zero, floatSolarNoonTime_polar,
    floatSunriseTime_polar]
  constructor
  · exact floatToUInt32_of_mem _ 1608551808 (by norm_num) (by norm_num) (by norm_num)
  · exact floatToUInt32_of_mem _ 1608551831 (by norm_num) (by norm_num) (by norm_num)

/-- C8 (code bug): longitude 0, time zone offset 0 and `t = 1578874098`
(2020-01-13 00:08:18), where `EOT` is the binary32 value `-1087905 / 131072`
(-8.300056457519531).  In the arithmetic of the source line 107 gives the True Solar
Time `-59 / 1048576` (about -0.0000563 minutes) and the normalisation of line 110
returns exactly 1440, which is not below 1440. -/
theorem TST_normalisation_returns_1440 :
    floatRawTST (floatTimeFracDay 1578874098) (-(1087905 / 131072)) 0 0 =
        -(59 / 1048576) ∧
      floatTST (floatRawTST (floatTimeFracDay 1578874098) (-(1087905 / 131072)) 0 0) =
        1440 := by
  rw [floatTimeFracDay_greenwich, floatRawTST_greenwich, floatTST_greenwich]
  exact ⟨rfl, rfl⟩

/-- C9 (amended): for every latitude with `|lat| ≤ 65` degrees, every longitude,
every time zone offset of the 16-bit `int` range and every instant of the
`uint32_t` range, the argument passed to `acos` when computing `HAS` is a number
in `[-1, 1]`, so that `HAS` and the day length are numbers. -/
theorem HASarg_in_domain (tz : ℤ) (lat lon : ℝ) (t : ℕ) (hl : |lat| ≤ 65)
    (h1 : -32768 ≤ tz) (h2 : tz ≤ 32767) (ht : t < 2 ^ 32) :
    (∃ x, HASarg lat (SDec (JCN tz t)) = some x ∧ -1 ≤ x ∧ x ≤ 1) ∧
    (∃ h, HAS lat (SDec (JCN tz t)) = some h ∧
      (recompute tz lat lon t).sunDuration = some (8 * h)) := by
  obtain ⟨j1, j2⟩ := JCN_bounds tz t ht h1 h2
  refine ⟨HASarg_mem lat _ hl j1 j2, ?_⟩
  obtain ⟨h, hh⟩ := HAS_defined lat _ hl j1 j2
  refine ⟨h, hh, ?_⟩
  rw [recompute_sunDuration, hh]
  rfl

/-- Witness of C9 (amended): latitude 65 on 1970-12-21 00:00:00 UTC. -/
theorem HASarg_in_domain_witness :
    (∃ x, HASarg 65 (SDec (JCN 0 30585600)) = some x ∧ -1 ≤ x ∧ x ≤ 1) ∧
    (∃ h, HAS 65 (SDec (JCN 0 30585600)) = some h ∧
      (recompute 0 65 0 30585600).sunDuration = some (8 * h)) :=
  HASarg_in_domain 0 65 0 30585600 (by norm_num) (by norm_num) (by norm_num) (by norm_num)

/-- C9 (counterexample): latitude 72, longitude 0, time zone 0, at
1970-12-21 00:00:00 UTC (`t = 30585600`): the argument passed to `acos` for `HAS`
is greater than 1, `HAS` is not a number and `getSunDuration` returns no
number. -/
theorem HASarg_in_domain_counterexample :
    |(72 : ℝ)| ≤ 72 ∧ (30585600 : ℕ) < 4102444800 ∧
    (∃ x, HASarg 72 (SDec (JCN 0 30585600)) = some x ∧ 1 < x) ∧
    HAS 72 (SDec (JCN 0 30585600)) = none ∧
    (getSunDuration (new zeroMem 0 72 0) 30585600).1 = none := by
  obtain ⟨x, hx, hx1⟩ := HASarg_winter_72
  have hn := HAS_none_of_arg _ _ x hx hx1
  refine ⟨by norm_num, by norm_num, ⟨x, hx, hx1⟩, hn, ?_⟩
  unfold getSunDuration
  simp only
  rw [(calcSolar_fields _ _ (new_zeroMem_cache 0 72 0 30585600 (by norm_num))).2.2.2.1,
    recompute_sunDuration]
  show Option.map _ (HAS 72 (SDec (JCN 0 30585600))) = none
  rw [hn]
  rfl

/-- C11: with latitude 0, for every longitude, time zone offset and instant `t`
at which the sun declination `SDec` is 0 (and more generally within 17 degrees
of 0), on an object whose cache is for another instant or valid: `HAS` is a
number within 1 degree of 90, `getSunDuration t` returns `8 * HAS`, which is
within 7 minutes of 720; when `SDec` is 0, `HAS` is 90.833 and the day length is
726.664 minutes. -/
theorem equator_equinox_day_length (s : SolarPos) (t : ℕ)
    (hc : s._lastTime = t → CacheValid s) (hlat : s._lat = 0)
    (hd : |SDec (JCN s._tzOffset t)| ≤ 17) :
    ∃ h, HAS s._lat (SDec (JCN s._tzOffset t)) = some h ∧ |h - 90| ≤ 1 ∧
      (getSunDuration s t).1 = some (8 * h) ∧ |8 * h - 720| ≤ 7 ∧
      (SDec (JCN s._tzOffset t) = 0 → h = 90.833 ∧ 8 * h = 726.664) := by
  obtain ⟨h, hh, h1, h2, h0⟩ := HAS_equator_near _ hd
  rw [← hlat] at hh
  refine ⟨h, hh, ?_, ?_, ?_, ?_⟩
  · rw [abs_le]; constructor <;> linarith
  · unfold getSunDuration
    simp only
    rw [(calcSolar_fields s t hc).2.2.2.1, recompute_sunDuration, hh]
    rfl
  · rw [abs_le]; constructor <;> linarith
  · intro hz
    have := h0 hz
    constructor
    · exact this
    · rw [this]; norm_num

/-- Witness of C11: the equator at longitude 0, time zone 0, on 1970-03-21
00:00:00 UTC (`t = 6825600`), where the declination is within 17 degrees of 0. -/
theorem equator_equinox_day_length_witness :
    |SDec (JCN (new zeroMem 0 0 0)._tzOffset 6825600)| ≤ 17 ∧
    ∃ h, HAS (new zeroMem 0 0 0)._lat (SDec (JCN (new zeroMem 0 0 0)._tzOffset 6825600)) = some h ∧
      |h - 90| ≤ 1 ∧ (getSunDuration (new zeroMem 0 0 0) 6825600).1 = some (8 * h) ∧
      |8 * h - 720| ≤ 7 ∧
      (SDec (JCN (new zeroMem 0 0 0)._tzOffset 6825600) = 0 → h = 90.833 ∧ 8 * h = 726.664) :=
  ⟨abs_SDec_spring, equator_equinox_day_length (new zeroMem 0 0 0) 6825600
    (new_zeroMem_cache 0 0 0 6825600 (by norm_num)) rfl abs_SDec_spring⟩

/-- C12: if the six cached fields of the object hold what `calcSolar` computes
from the current configuration for `_lastTime`, then after any of the six
queries with any instant `t` the configuration is unchanged, `_lastTime = t` and
the six cached fields hold what `calcSolar` computes from the configuration for
`t` (the cache is valid again); and when `t` already equals `_lastTime` the
query changes no field at all. -/
theorem cache_valid_invariant (s : SolarPos) (q : Query) (t : ℕ) (hv : CacheValid s) :
    (q.run s t)._lastTime = t ∧
    (q.run s t)._tzOffset = s._tzOffset ∧ (q.run s t)._lat = s._lat ∧
    (q.run s t)._lon = s._lon ∧
    (q.run s t)._SolarNoonTime = (recompute s._tzOffset s._lat s._lon t).solarNoonTime ∧
    (q.run s t)._SunriseTime = (recompute s._tzOffset s._lat s._lon t).sunriseTime ∧
    (q.run s t)._SunsetTime = (recompute s._tzOffset s._lat s._lon t).sunsetTime ∧
    (q.run s t)._SunDuration = (recompute s._tzOffset s._lat s._lon t).sunDuration ∧
    (q.run s t)._SEC_Corr = (recompute s._tzOffset s._lat s._lon t).secCorr ∧
    (q.run s t)._SAA = (recompute s._tzOffset s._lat s._lon t).saa ∧
    CacheValid (q.run s t) ∧
    (s._lastTime = t → q.run s t = s) := by
  rw [Query.run_eq]
  obtain ⟨f1, f2, f3, f4, f5, f6⟩ := calcSolar_fields s t (fun _ => hv)
  exact ⟨calcSolar_lastTime s t, calcSolar_tzOffset s t, calcSolar_lat s t, calcSolar_lon s t,
    f1, f2, f3, f4, f5, f6, calcSolar_cacheValid s t (fun _ => hv), calcSolar_of_eq s t⟩

/-- Witness of C12: the object left by a first query at `t = 1` on a fresh
object in zeroed storage has a valid cache; a query at `t = 2` then leaves
`_lastTime = 2` and a valid cache. -/
theorem cache_valid_invariant_witness :
    CacheValid (getSAA (new zeroMem 0 0 0) 1).2 ∧
    (Query.sunriseTime.run (getSAA (new zeroMem 0 0 0) 1).2 2)._lastTime = 2 ∧
    CacheValid (Query.sunriseTime.run (getSAA (new zeroMem 0 0 0) 1).2 2) := by
  have hv : CacheValid (getSAA (new zeroMem 0 0 0) 1).2 :=
    calcSolar_cacheValid _ _ (new_zeroMem_cache 0 0 0 1 (by norm_num))
  have h := cache_valid_invariant (getSAA (new zeroMem 0 0 0) 1).2 Query.sunriseTime 2 hv
  exact ⟨hv, h.1, h.2.2.2.2.2.2.2.2.2.2.1⟩

/-- C13 (code bug): longitude 0, time zone offset 0 and `t = 1578874098`
(2020-01-13 00:08:18), where `EOT` is the binary32 value `-1087905 / 131072`
(-8.300056457519531).  In the arithmetic of the source the True Solar Time after
line 110 is exactly 1440, the branch `TST/4 >= 0` is taken and the hour angle is
`1440 / 4 - 180 = 180`, which is not below 180. -/
theorem hour_angle_reaches_180 :
    floatHA (floatTST (floatRawTST (floatTimeFracDay 1578874098) (-(1087905 / 131072)) 0 0)) =
      some 180 := by
  rw [floatTimeFracDay_greenwich, floatRawTST_greenwich, floatTST_greenwich, floatHA_1440]

/-- C14: for every instant `t`, with `hour`, `minute`, `second` the UTC civil
time of `t`, the fractional day `((second/60 + minute)/60 + hour)/24` equals
`(t mod 86400)/86400`, lies in `[0, 1)`, is `1/2` at noon (when
`t mod 86400 = 43200`), and `unixDays + timeFracDay` equals `t/86400` (the real
quotient). -/
theorem timeFracDay_exact (t : ℕ) :
    timeFracDay t = ((t % 86400 : ℕ) : ℝ) / 86400 ∧
    0 ≤ timeFracDay t ∧ timeFracDay t < 1 ∧
    (t % 86400 = 43200 → timeFracDay t = 1 / 2) ∧
    (unixDays t : ℝ) + timeFracDay t = (t : ℝ) / 86400 := by
  refine ⟨timeFracDay_eq t, timeFracDay_nonneg t, timeFracDay_lt_one t, ?_, ?_⟩
  · intro h
    rw [timeFracDay_eq, h]
    norm_num
  · rw [timeFracDay_eq]
    unfold unixDays
    rw [Int.cast_natCast]
    have h : (t : ℝ) = 86400 * ((t / 86400 : ℕ) : ℝ) + ((t % 86400 : ℕ) : ℝ) := by
      have := Nat.div_add_mod t 86400
      exact_mod_cast this.symm
    rw [h]
    field_simp
    ring

/-- C15 (code bug): latitude 36.62, longitude -121.904, time zone offset -8 and
`t = 1593604800` (2020-07-01 12:00:00), where `EOT` is the binary32 value
`-8437657 / 2097152` (-4.023388385772705) and `HAS` is the binary32 value
`14367243 / 131072` (109.61336517333984).  In the arithmetic of the source the
values before the conversion to `uint32_t` are 1593605504 for solar noon, 1593579150
for sunrise and 1593631800 for sunset, and the day length is 876.9069213867188
minutes: solar noon is 26354 s after sunrise and 26296 s before sunset, neither of
which is `240 * HAS = 26307.2`, and sunset is 52650 s after sunrise, which is not 60
times the day length, 52614.4. -/
theorem sunrise_sunset_not_symmetric :
    floatSolarNoonTime (unixDays 1593604800)
        (floatSolarNoonfrac (round32 (round64 (-121.904))) (-(8437657 / 2097152)))
        (floatOffsetDay (-8)) = 1593605504 ∧
      floatSunriseTime (unixDays 1593604800)
        (floatSolarNoonfrac (round32 (round64 (-121.904))) (-(8437657 / 2097152)))
        (14367243 / 131072) (floatOffsetDay (-8)) = 1593579150 ∧
      floatSunsetTime (unixDays 1593604800)
        (floatSolarNoonfrac (round32 (round64 (-121.904))) (-(8437657 / 2097152)))
        (14367243 / 131072) (floatOffsetDay (-8)) = 1593631800 ∧
      floatSunDuration (14367243 / 131072) = 14367243 / 16384 := by
  have hu : unixDays 1593604800 = 18444 := by unfold unixDays; norm_num
  rw [hu, round32_monterey_lon, floatOffsetDay_monterey, floatSolarNoonfrac_monterey,
    floatSolarNoonTime_monterey, floatSunriseTime_monterey, floatSunsetTime_monterey,
    floatSunDuration_monterey]
  exact ⟨rfl, rfl, rfl, rfl⟩

/-- C16 (code bug): latitude 45, longitude 0, time zone offset 0 and
`t = 1577966624` (2020-01-02 12:03:44), with the binary32 values
`SDec = -12024717 / 524288`, `SZA = 8904419 / 131072` and `HA = -991 / 65536` that
`calcSolar` holds there.  The hour angle is not positive (the instant is before
solar noon) and the divisor of the azimuth quotient is not zero, but the azimuth is
no number, so it is not a number in `[0, 180]`. -/
theorem azimuth_not_in_eastern_half :
    (-(991 / 65536) : ℝ) ≤ 0 ∧
      Real.cos (45 * DEG_TO_RAD) * Real.sin (8904419 / 131072 * DEG_TO_RAD) ≠ 0 ∧
      ¬ ∃ a, SAA 45 (-(12024717 / 524288)) (8904419 / 131072) (-(991 / 65536)) = some a ∧
        0 ≤ a ∧ a ≤ 180 := by
  refine ⟨by norm_num, ?_, ?_⟩
  · obtain ⟨q, h, -⟩ := azimuth_quotient_gt_one 45 (-(12024717 / 524288)) (8904419 / 131072)
      (by norm_num) (by norm_num) (by norm_num) (by norm_num) (by norm_num) (by norm_num)
    intro h0
    unfold fdiv at h
    rw [if_pos h0] at h
    exact Option.noConfusion h
  · rintro ⟨a, ha, -⟩
    unfold SAA rawSAA at ha
    rw [azimuthAcos_rounded_zenith] at ha
    split at ha <;> exact Option.noConfusion ha

end SolarPos
